import Mathlib

/-!
Shallow embedding of the HALO core (gesture classifier, coordinate mapper,
object pool, effects engine state operations) and verification of the
specification claims about it.  Numbers are modelled as rationals; the
transcendental functions `Math.sqrt`, `Math.acos`, `Math.sin` and
`Math.cos` are abstracted as a parameter structure carrying only the facts
the code relies on (their use sites always clamp the argument of `acos` to
`[-1, 1]` and feed `sqrt` sums of squares).  The JavaScript `Math.random()`
draws are passed in as explicit oracle arguments in source order.  Where JS
float semantics matter — the `0 / 0 = NaN` path of the peace-sign
separation ratio — the error value is modelled explicitly as an `Option`.
-/

/-- Gesture labels, from `constants.ts`. -/
inductive GestureType where
  | NONE
  | THUMBS_UP_HALO
  | TWO_HAND_HEART
  | ROCK_SIGN
  | POINT_SPARKLES
  | PEACE_SIGN
  deriving DecidableEq, Repr

/-- Threshold from `constants.ts`: max normalized distance between matching tips. -/
def HEART_THRESHOLD : ℚ := 7/100

/-- Frames of consistent detection required to lock (`constants.ts`). -/
def STABILITY_FRAMES : ℕ := 30

/-- Non-matching frames tolerated while locked (`constants.ts`). -/
def LOST_GRACE_FRAMES : ℕ := 12

/-- Finger extension angle threshold in degrees (`constants.ts`). -/
def FINGER_EXTENDED_ANGLE : ℚ := 40

/-- Landmarks of one hand as read by the classifier: the source stores a
`Record<string, [number, number]>`; these are exactly the keys the classifier
and effects engine ever look up.  A missing key is `none`. -/
structure Hand where
  wrist : Option (ℚ × ℚ) := none
  thumb_ip : Option (ℚ × ℚ) := none
  thumb_tip : Option (ℚ × ℚ) := none
  index_mcp : Option (ℚ × ℚ) := none
  index_pip : Option (ℚ × ℚ) := none
  index_tip : Option (ℚ × ℚ) := none
  middle_mcp : Option (ℚ × ℚ) := none
  middle_pip : Option (ℚ × ℚ) := none
  middle_tip : Option (ℚ × ℚ) := none
  ring_mcp : Option (ℚ × ℚ) := none
  ring_pip : Option (ℚ × ℚ) := none
  ring_tip : Option (ℚ × ℚ) := none
  pinky_mcp : Option (ℚ × ℚ) := none
  pinky_pip : Option (ℚ × ℚ) := none
  pinky_tip : Option (ℚ × ℚ) := none
  deriving DecidableEq

/-- The `hands` record of `MPResults` (`modules/mediapipe.ts`): the record
itself is a required field, but each of its `left` and `right` entries is
optional. -/
structure Hands where
  left : Option Hand := none
  right : Option Hand := none
  deriving DecidableEq

/-- The `pose` record of `MPResults`: `processFrame` fills in these nine
landmark keys when a pose is detected and leaves the record empty otherwise.
The classifier never reads any of them (only the effects renderer does), so
only their optional presence is modelled. -/
structure Pose where
  nose : Option (ℚ × ℚ) := none
  left_hip : Option (ℚ × ℚ) := none
  right_hip : Option (ℚ × ℚ) := none
  left_wrist : Option (ℚ × ℚ) := none
  right_wrist : Option (ℚ × ℚ) := none
  left_shoulder : Option (ℚ × ℚ) := none
  right_shoulder : Option (ℚ × ℚ) := none
  left_elbow : Option (ℚ × ℚ) := none
  right_elbow : Option (ℚ × ℚ) := none
  deriving DecidableEq

/-- `MPResults` from `modules/mediapipe.ts`: `pose` and `hands` are
*required* record fields — `processFrame` always constructs them (possibly
as empty records), so as JS values they are always truthy objects.  The
`raw` field passes the original framework results through for drawing only;
nothing modelled here ever reads it, so it carries no data. -/
structure MPResults where
  pose : Pose := {}
  hands : Hands := {}
  raw : Unit := ()
  deriving DecidableEq

/-- The four non-thumb fingers used by the angle helpers. -/
inductive Finger where
  | index
  | middle
  | ring
  | pinky
  deriving DecidableEq

/-- Lookup of `hand[finger+"_mcp"]`. -/
def Hand.fingerMcp (h : Hand) : Finger → Option (ℚ × ℚ)
  | .index => h.index_mcp
  | .middle => h.middle_mcp
  | .ring => h.ring_mcp
  | .pinky => h.pinky_mcp

/-- Lookup of `hand[finger+"_pip"]`. -/
def Hand.fingerPip (h : Hand) : Finger → Option (ℚ × ℚ)
  | .index => h.index_pip
  | .middle => h.middle_pip
  | .ring => h.ring_pip
  | .pinky => h.pinky_pip

/-- Lookup of `hand[finger+"_tip"]`. -/
def Hand.fingerTip (h : Hand) : Finger → Option (ℚ × ℚ)
  | .index => h.index_tip
  | .middle => h.middle_tip
  | .ring => h.ring_tip
  | .pinky => h.pinky_tip

/-- Abstraction of the irrational library values the code uses.
`sqrt` models `Math.sqrt`; `acosDeg x` models `Math.acos(x) * 180 / Math.PI`;
`sin`/`cos` model `Math.sin`/`Math.cos` (radians); `pi` models `Math.PI`.
The recorded facts are the ones true of the real functions on the domains the
code uses (arguments of `sqrt` are sums of squares; the argument of `acos` is
always clamped into `[-1, 1]` first, where `acos` lands in `[0, π]`). -/
structure MathOps where
  sqrt : ℚ → ℚ
  acosDeg : ℚ → ℚ
  sin : ℚ → ℚ
  cos : ℚ → ℚ
  pi : ℚ
  sqrt_nonneg : ∀ x, 0 ≤ x → 0 ≤ sqrt x
  acosDeg_nonneg : ∀ x, -1 ≤ x → x ≤ 1 → 0 ≤ acosDeg x
  acosDeg_le : ∀ x, -1 ≤ x → x ≤ 1 → acosDeg x ≤ 180

namespace GestureClassifier

/-- Euclidean distance between two landmark points (`distance` in the source). -/
def distance (ops : MathOps) (p1 p2 : ℚ × ℚ) : ℚ :=
  let dx := p1.1 - p2.1
  let dy := p1.2 - p2.2
  ops.sqrt (dx * dx + dy * dy)

/-- Angle (degrees) between the MCP→PIP and PIP→TIP vectors of a finger
(`getFingerAngle`); 180 when landmarks are missing or a vector is
zero-magnitude. -/
def getFingerAngle (ops : MathOps) (hand : Hand) (finger : Finger) : ℚ :=
  match hand.fingerMcp finger, hand.fingerPip finger, hand.fingerTip finger with
  | some mcp, some pip, some tip =>
    let v1 : ℚ × ℚ := (pip.1 - mcp.1, pip.2 - mcp.2)
    let v2 : ℚ × ℚ := (tip.1 - pip.1, tip.2 - pip.2)
    let dot := v1.1 * v2.1 + v1.2 * v2.2
    let mag1 := ops.sqrt (v1.1 * v1.1 + v1.2 * v1.2)
    let mag2 := ops.sqrt (v2.1 * v2.1 + v2.2 * v2.2)
    if mag1 = 0 ∨ mag2 = 0 then 180
    else ops.acosDeg (max (-1) (min 1 (dot / (mag1 * mag2))))
  | _, _, _ => 180

/-- `isFingerExtended`: angle strictly below the 40° threshold. -/
def isFingerExtended (ops : MathOps) (hand : Hand) (finger : Finger) : Bool :=
  decide (getFingerAngle ops hand finger < FINGER_EXTENDED_ANGLE)

/-- `isFingerCurled`: angle strictly above the 40° threshold. -/
def isFingerCurled (ops : MathOps) (hand : Hand) (finger : Finger) : Bool :=
  decide (getFingerAngle ops hand finger > FINGER_EXTENDED_ANGLE)

/-- `getFingerCurlConfidence`: linear from the threshold to 180°, floored at 0. -/
def getFingerCurlConfidence (ops : MathOps) (hand : Hand) (finger : Finger) : ℚ :=
  max 0 ((getFingerAngle ops hand finger - FINGER_EXTENDED_ANGLE) / (180 - FINGER_EXTENDED_ANGLE))

/-- `getFingerExtensionConfidence`: linear from 0° to the threshold, floored at 0. -/
def getFingerExtensionConfidence (ops : MathOps) (hand : Hand) (finger : Finger) : ℚ :=
  max 0 (1 - getFingerAngle ops hand finger / FINGER_EXTENDED_ANGLE)

/-- The shared both-hands pattern of three single-hand detectors: check
each present hand and keep the result with the strictly higher confidence
(starting from NONE/0).  The JS entry guard `if (!mpResults.hands)` never
fires: `hands` is a required (always truthy) object field of `MPResults`. -/
def bestOfHands (check : Hand → GestureType × ℚ) (r : MPResults) : GestureType × ℚ :=
  let best : GestureType × ℚ := (GestureType.NONE, 0)
  let best := match r.hands.left with
    | some h =>
      let leftResult := check h
      if leftResult.2 > best.2 then leftResult else best
    | none => best
  let best := match r.hands.right with
    | some h =>
      let rightResult := check h
      if rightResult.2 > best.2 then rightResult else best
    | none => best
  best

/-- `checkThumbsUpHand`: thumb tip above thumb IP and all four fingers curled. -/
def checkThumbsUpHand (ops : MathOps) (hand : Hand) : GestureType × ℚ :=
  match hand.thumb_tip, hand.thumb_ip with
  | some thumb_tip, some thumb_ip =>
    let thumbExtended := decide (thumb_tip.2 < thumb_ip.2)
    let indexCurled := isFingerCurled ops hand .index
    let middleCurled := isFingerCurled ops hand .middle
    let ringCurled := isFingerCurled ops hand .ring
    let pinkyCurled := isFingerCurled ops hand .pinky
    if thumbExtended && indexCurled && middleCurled && ringCurled && pinkyCurled then
      let thumbConf : ℚ := if thumb_tip.2 < thumb_ip.2 then 1 else 0
      let indexConf := getFingerCurlConfidence ops hand .index
      let middleConf := getFingerCurlConfidence ops hand .middle
      let ringConf := getFingerCurlConfidence ops hand .ring
      let pinkyConf := getFingerCurlConfidence ops hand .pinky
      (GestureType.THUMBS_UP_HALO, (thumbConf + indexConf + middleConf + ringConf + pinkyConf) / 5)
    else (GestureType.NONE, 0)
  | _, _ => (GestureType.NONE, 0)

/-- `detectThumbsUp`: best of the two hands. -/
def detectThumbsUp (ops : MathOps) (r : MPResults) : GestureType × ℚ :=
  bestOfHands (checkThumbsUpHand ops) r

/-- `detectTwoHandHeart`: thumb tips and index tips of both hands close and
vertically aligned.  The `!mpResults.hands` part of the JS entry guard never
fires (`hands` is a required field); only the `!hands.left || !hands.right`
checks remain live. -/
def detectTwoHandHeart (ops : MathOps) (r : MPResults) : GestureType × ℚ :=
  match r.hands.left, r.hands.right with
  | some leftHand, some rightHand =>
    match leftHand.thumb_tip, leftHand.index_tip, rightHand.thumb_tip, rightHand.index_tip with
    | some lt, some li, some rt, some ri =>
      let thumbDistance := distance ops lt rt
      let thumbsClose := decide (thumbDistance < HEART_THRESHOLD)
      let indexDistance := distance ops li ri
      let indexClose := decide (indexDistance < HEART_THRESHOLD)
      let yDiffThumbs := |lt.2 - rt.2|
      let yDiffIndex := |li.2 - ri.2|
      let thumbsAligned := decide (yDiffThumbs < 1/10)
      let indexAligned := decide (yDiffIndex < 1/10)
      if thumbsClose && indexClose && thumbsAligned && indexAligned then
        let avgDistance := (thumbDistance + indexDistance) / 2
        (GestureType.TWO_HAND_HEART, max 0 (1 - avgDistance / HEART_THRESHOLD))
      else (GestureType.NONE, 0)
    | _, _, _, _ => (GestureType.NONE, 0)
  | _, _ => (GestureType.NONE, 0)

/-- `checkRockSignHand`: index and pinky extended, middle and ring curled. -/
def checkRockSignHand (ops : MathOps) (hand : Hand) : GestureType × ℚ :=
  let indexExtended := isFingerExtended ops hand .index
  let pinkyExtended := isFingerExtended ops hand .pinky
  let middleCurled := !(isFingerExtended ops hand .middle)
  let ringCurled := !(isFingerExtended ops hand .ring)
  if indexExtended && pinkyExtended && middleCurled && ringCurled then
    let indexConf := getFingerExtensionConfidence ops hand .index
    let pinkyConf := getFingerExtensionConfidence ops hand .pinky
    let middleConf := 1 - getFingerExtensionConfidence ops hand .middle
    let ringConf := 1 - getFingerExtensionConfidence ops hand .ring
    (GestureType.ROCK_SIGN, (indexConf + pinkyConf + middleConf + ringConf) / 4)
  else (GestureType.NONE, 0)

/-- `detectRockSign`: best of the two hands. -/
def detectRockSign (ops : MathOps) (r : MPResults) : GestureType × ℚ :=
  bestOfHands (checkRockSignHand ops) r

/-- `checkPointHand`: index extended, the other three curled. -/
def checkPointHand (ops : MathOps) (hand : Hand) : GestureType × ℚ :=
  let indexExtended := isFingerExtended ops hand .index
  let middleCurled := !(isFingerExtended ops hand .middle)
  let ringCurled := !(isFingerExtended ops hand .ring)
  let pinkyCurled := !(isFingerExtended ops hand .pinky)
  if indexExtended && middleCurled && ringCurled && pinkyCurled then
    let indexConf := getFingerExtensionConfidence ops hand .index
    let middleConf := 1 - getFingerExtensionConfidence ops hand .middle
    let ringConf := 1 - getFingerExtensionConfidence ops hand .ring
    let pinkyConf := 1 - getFingerExtensionConfidence ops hand .pinky
    (GestureType.POINT_SPARKLES, (indexConf + middleConf + ringConf + pinkyConf) / 4)
  else (GestureType.NONE, 0)

/-- `detectFingerPoint`: best of the two hands. -/
def detectFingerPoint (ops : MathOps) (r : MPResults) : GestureType × ℚ :=
  bestOfHands (checkPointHand ops) r

/-- `checkPeaceSignHand`: index and middle extended, ring and pinky curled,
both tips above the wrist, tip separation at least 5% of palm width.
The returned confidence is a JS number that can be `NaN` (modelled as
`none`): with palm width 0 the separation guard still passes (`0 >= 0`),
and `fingerSeparation / (minSeparation * 2)` divides by zero — in JS
`0 / 0` is `NaN`, which then propagates through `Math.min` and the final
average, while `positive / 0` is `+Infinity`, so `Math.min(1, Infinity)`
is `1`.  Distances are `Math.sqrt` values, never negative, so the
`-Infinity` case cannot arise. -/
def checkPeaceSignHand (ops : MathOps) (hand : Hand) : GestureType × Option ℚ :=
  let indexExtended := isFingerExtended ops hand .index
  let middleExtended := isFingerExtended ops hand .middle
  let ringCurled := !(isFingerExtended ops hand .ring)
  let pinkyCurled := !(isFingerExtended ops hand .pinky)
  if indexExtended && middleExtended && ringCurled && pinkyCurled then
    match hand.index_tip, hand.middle_tip, hand.wrist with
    | some indexTip, some middleTip, some wrist =>
      let tipsAboveWrist := decide (indexTip.2 < wrist.2) && decide (middleTip.2 < wrist.2)
      match hand.pinky_mcp, hand.index_mcp with
      | some pinkyMcp, some indexMcp =>
        let palmWidth := distance ops pinkyMcp indexMcp
        let fingerSeparation := distance ops indexTip middleTip
        let minSeparation := 5/100 * palmWidth
        let fingersSeparated := decide (fingerSeparation ≥ minSeparation)
        if tipsAboveWrist && fingersSeparated then
          let indexConf := getFingerExtensionConfidence ops hand .index
          let middleConf := getFingerExtensionConfidence ops hand .middle
          let ringConf := 1 - getFingerExtensionConfidence ops hand .ring
          let pinkyConf := 1 - getFingerExtensionConfidence ops hand .pinky
          match (if minSeparation * 2 = 0 then
                   (if fingerSeparation = 0 then none else some 1)
                 else some (min 1 (fingerSeparation / (minSeparation * 2))) : Option ℚ) with
          | none => (GestureType.PEACE_SIGN, none)
          | some separationConf =>
            (GestureType.PEACE_SIGN,
              some ((indexConf + middleConf + ringConf + pinkyConf + separationConf) / 5))
        else (GestureType.NONE, some 0)
      | _, _ => (GestureType.NONE, some 0)
    | _, _, _ => (GestureType.NONE, some 0)
  else (GestureType.NONE, some 0)

/-- `detectPeaceSign`: best of the two hands.  The comparison follows JS
semantics: `NaN > x` is `false`, so a `NaN`-confidence check result never
replaces the current best, and the detector itself always returns a plain
number. -/
def detectPeaceSign (ops : MathOps) (r : MPResults) : GestureType × ℚ :=
  let best : GestureType × ℚ := (GestureType.NONE, 0)
  let best := match r.hands.left with
    | some h =>
      let leftResult := checkPeaceSignHand ops h
      match leftResult.2 with
      | some c => if c > best.2 then (leftResult.1, c) else best
      | none => best
    | none => best
  let best := match r.hands.right with
    | some h =>
      let rightResult := checkPeaceSignHand ops h
      match rightResult.2 with
      | some c => if c > best.2 then (rightResult.1, c) else best
      | none => best
    | none => best
  best

/-- `classifyFrame`: the highest-confidence detector result (JS `reduce`
keeps the earlier element on ties).  The JS early return
`if (!mpResults.pose && !mpResults.hands) return NONE/0` never fires: both
`pose` and `hands` are required (always truthy) object fields of
`MPResults`, so the detectors always run — on a frame with no hand data
each of the five detectors itself yields (NONE, 0). -/
def classifyFrame (ops : MathOps) (r : MPResults) : GestureType × ℚ :=
  let g1 := detectThumbsUp ops r
  let g2 := detectTwoHandHeart ops r
  let g3 := detectRockSign ops r
  let g4 := detectFingerPoint ops r
  let g5 := detectPeaceSign ops r
  List.foldl (fun best current => if current.2 > best.2 then current else best) g1 [g2, g3, g4, g5]

/-- `GestureState` from `types.ts`, with the gesture as the typed label. -/
structure GestureState where
  type : GestureType
  confidence : ℚ
  locked : Bool
  stabilityCount : ℕ
  deriving DecidableEq

/-- Classifier instance state: the `currentState` plus `graceFramesRemaining`. -/
structure ClassifierState where
  current : GestureState
  grace : ℕ
  deriving DecidableEq

/-- The initial / `reset()` state of the classifier. -/
def resetClassifierState : ClassifierState :=
  { current := { type := GestureType.NONE, confidence := 0, locked := false, stabilityCount := 0 }
    grace := 0 }

/-- The state transition of `updateState` applied to an already classified
`(type, confidence)` pair, translated branch by branch from the source:
locked-and-same returns unchanged; locked-and-different consumes grace or,
when grace is exhausted, unlocks and falls through; then matching non-NONE
types increment stability (locking at `STABILITY_FRAMES` and refilling
grace) and anything else restarts the count at 1 on the new type. -/
def updateStateCore (s : ClassifierState) (tc : GestureType × ℚ) : ClassifierState :=
  if s.current.locked ∧ s.current.type = tc.1 then s
  else if s.current.locked ∧ s.current.type ≠ tc.1 ∧ 0 < s.grace then
    { s with grace := s.grace - 1 }
  else
    let cur := if s.current.locked then
      { s.current with locked := false, stabilityCount := 0 } else s.current
    if cur.type = tc.1 ∧ tc.1 ≠ GestureType.NONE then
      let count := cur.stabilityCount + 1
      let conf := max cur.confidence tc.2
      if STABILITY_FRAMES ≤ count then
        { current := { type := cur.type, confidence := conf, locked := true, stabilityCount := count }
          grace := LOST_GRACE_FRAMES }
      else
        { current := { cur with confidence := conf, stabilityCount := count }
          grace := s.grace }
    else
      { current := { type := tc.1, confidence := tc.2, locked := cur.locked, stabilityCount := 1 }
        grace := s.grace }

/-- `updateState`: classify the frame, then advance the lock state machine. -/
def updateState (ops : MathOps) (s : ClassifierState) (r : MPResults) : ClassifierState :=
  updateStateCore s (classifyFrame ops r)

end GestureClassifier

/-! ## Coordinate mapper (`renderer/crop.ts`) -/

/-- JavaScript `Math.round`: round half up. -/
def jsRound (q : ℚ) : ℤ := ⌊q + 1/2⌋

/-- The crop rectangle plus target dimensions (`CropResult`). -/
structure CropResult where
  sx : ℚ
  sy : ℚ
  sw : ℚ
  sh : ℚ
  tw : ℚ
  th : ℚ
  deriving DecidableEq

/-- `computeCenteredCrop`: aspect-preserving centered crop of a `vw × vh`
source for a `tw × th` target, rounded to integer pixels. -/
def computeCenteredCrop (vw vh tw th : ℚ) : CropResult :=
  let srcAspect := vw / vh
  let tgtAspect := tw / th
  if srcAspect > tgtAspect then
    let sh := vh
    let sw : ℚ := jsRound (sh * tgtAspect)
    let sx : ℚ := jsRound ((vw - sw) / 2)
    { sx := sx, sy := 0, sw := sw, sh := sh, tw := tw, th := th }
  else
    let sw := vw
    let sh : ℚ := jsRound (sw / tgtAspect)
    let sy : ℚ := jsRound ((vh - sh) / 2)
    { sx := 0, sy := sy, sw := sw, sh := sh, tw := tw, th := th }

/-- `normToCropPx`, the body of the exposed `toPx` mapping: scales the
normalized coordinate by the crop dimension and then by target/crop.
(Rational division by zero is 0, so a zero crop dimension yields 0.) -/
def normToCropPx (nx ny : ℚ) (crop : CropResult) : ℚ × ℚ :=
  let scaleX := crop.tw / crop.sw
  let scaleY := crop.th / crop.sh
  (nx * crop.sw * scaleX, ny * crop.sh * scaleY)

/-- Modelled from the spec (for comparison with `normToCropPx`): "converts a
landmark normalized to the *full source frame* into target-canvas pixel space
by first scaling to source pixels, subtracting the crop origin, then scaling
by `targetDim/cropDim` (zero-guarded when crop width/height is 0)". -/
def specToPixel (vw vh nx ny : ℚ) (crop : CropResult) : ℚ × ℚ :=
  let x := if crop.sw = 0 then 0 else (nx * vw - crop.sx) * (crop.tw / crop.sw)
  let y := if crop.sh = 0 then 0 else (ny * vh - crop.sy) * (crop.th / crop.sh)
  (x, y)

/-! ## Object pool and effects-engine state (`EffectsManager.ts`)

The rendering side of the effects engine is canvas work with no bearing on the claims;
what is embedded here is the particle/pool state and every operation that
mutates it along the spawn / lock-event / per-frame update / clear paths.
`Math.random()` draws are supplied as an oracle `rand : ℕ → ℚ` indexed in
call order within one spawn or particle update. -/

/-- Generic object pool: a free list plus the factory.  `initialSize`
instances are pre-created by the constructor. -/
structure ObjectPool (T : Type) where
  pool : List T
  createFn : Unit → T

/-- The pool constructor: pre-fill with `initialSize` fresh instances. -/
def mkObjectPool {T : Type} (createFn : Unit → T) (initialSize : ℕ := 20) : ObjectPool T :=
  { pool := List.replicate initialSize (createFn ()), createFn := createFn }

/-- `get()`: pop the last element of the free list, or construct a new
instance when the list is empty. -/
def ObjectPool.get {T : Type} (p : ObjectPool T) : T × ObjectPool T :=
  match p.pool.getLast? with
  | some x => (x, { p with pool := p.pool.dropLast })
  | none => (p.createFn (), p)

/-- `release(obj)`: push onto the free list unless it already holds 50. -/
def ObjectPool.release {T : Type} (p : ObjectPool T) (obj : T) : ObjectPool T :=
  if p.pool.length < 50 then { p with pool := p.pool ++ [obj] } else p

/-- Per-system caps hardcoded at the top of `EffectsManager.ts`. -/
def MAX_CONFETTI : ℕ := 160

/-- Heart active cap. -/
def MAX_HEARTS : ℕ := 70

/-- Bolt active cap (`MAX_ACTIVE_BOLTS`). -/
def MAX_BOLTS : ℕ := 3

/-- Sparkle active cap. -/
def MAX_SPARKLES : ℕ := 160

/-- Balloon active cap (`MAX_ACTIVE_BALLOONS`). -/
def MAX_BALLOONS : ℕ := 20

/-- `MAX_PARTICLES_TOTAL` from `constants.ts` (the spawn guards hardcode 300). -/
def MAX_PARTICLES_TOTAL : ℕ := 300

/-- Confetti shapes. -/
inductive ConfettiShape where
  | rect
  | triangle
  | circle
  deriving DecidableEq

/-- Fields shared by the `Particle` base class. -/
structure ParticleBase where
  x : ℚ := 0
  y : ℚ := 0
  vx : ℚ := 0
  vy : ℚ := 0
  rotation : ℚ := 0
  rotationSpeed : ℚ := 0
  life : ℚ := 0
  maxLife : ℚ := 0
  active : Bool := false
  color : String := "#ffffff"
  size : ℚ := 1
  seed : ℚ := 0
  deriving DecidableEq

/-- Confetti particle. -/
structure ConfettiParticle extends ParticleBase where
  shape : ConfettiShape := .rect
  deriving DecidableEq

/-- Heart particle (sway parameters are drawn at construction time). -/
structure HeartParticle extends ParticleBase where
  swayPhase : ℚ := 0
  swayAmplitude : ℚ := 12
  deriving DecidableEq

/-- The rocket phase of a firecracker bolt. -/
structure Rocket where
  x : ℚ := 0
  y : ℚ := 0
  vx : ℚ := 0
  vy : ℚ := 0
  life : ℚ := 0
  maxLife : ℚ := 0
  targetY : ℚ := 0
  exploded : Bool := false
  explosionScale : Option ℚ := none
  deriving DecidableEq

/-- One spark of an exploded bolt. -/
structure Spark where
  x : ℚ := 0
  y : ℚ := 0
  vx : ℚ := 0
  vy : ℚ := 0
  life : ℚ := 0
  maxLife : ℚ := 0
  size : ℚ := 0
  color : String := "#ffffff"
  deriving DecidableEq

/-- `LightningBolt` (firecracker burst): optional rocket plus sparks. -/
structure LightningBolt where
  rocket : Option Rocket := none
  sparks : List Spark := []
  startTime : ℚ := 0
  life : ℚ := 0
  maxLife : ℚ := 0
  active : Bool := false
  deriving DecidableEq

/-- Sparkle particle. -/
structure SparkleParticle extends ParticleBase where
  deriving DecidableEq

/-- Balloon particle. -/
structure BalloonParticle extends ParticleBase where
  swayOffset : ℚ := 0
  swaySpeed : ℚ := 0
  riseSpeed : ℚ := 0
  swayAmplitude : ℚ := 0
  deriving DecidableEq

/-- `Particle.reset()` on the base fields (the fresh `seed` draw is passed in). -/
def ParticleBase.resetBase (seedDraw : ℚ) : ParticleBase :=
  { x := 0, y := 0, vx := 0, vy := 0, rotation := 0, rotationSpeed := 0
    life := 0, maxLife := 0, active := false, color := "#ffffff", size := 1
    seed := seedDraw }

/-- `BalloonParticle.reset()`: base reset plus fresh sway draws. -/
def BalloonParticle.resetBalloon (ops : MathOps) (b : BalloonParticle)
    (seedDraw swayOffsetDraw swaySpeedDraw : ℚ) : BalloonParticle :=
  { toParticleBase := ParticleBase.resetBase seedDraw
    swayOffset := swayOffsetDraw * ops.pi * 2
    swaySpeed := 1/2 + swaySpeedDraw * 1
    riseSpeed := b.riseSpeed
    swayAmplitude := b.swayAmplitude }

/-- The `EffectsManager` state touched by the spawn / lock-event / clear
paths.  Canvas contexts, sprite caches and the shutdown fade fields are
render-only and are not part of this model. -/
structure EMState where
  confettiPool : ObjectPool ConfettiParticle
  heartPool : ObjectPool HeartParticle
  boltPool : ObjectPool LightningBolt
  sparklePool : ObjectPool SparkleParticle
  balloonPool : ObjectPool BalloonParticle
  activeConfetti : List ConfettiParticle := []
  activeHearts : List HeartParticle := []
  activeBolts : List LightningBolt := []
  activeSparkles : List SparkleParticle := []
  activeBalloons : List BalloonParticle := []
  time : ℚ := 0
  lastTime : ℚ := 0
  confettiSpawnTimer : ℚ := 0
  heartSpawnTimer : ℚ := 0
  boltSpawnTimer : ℚ := 0
  sparkleSpawnTimer : ℚ := 0
  balloonSpawnTimer : ℚ := 0
  lastGestureState : GestureType := GestureType.NONE
  balloonsEnabled : Bool := false

namespace EffectsManager

/-- `getActiveParticleCount`: total active particles across the five
systems; each bolt contributes its sparks plus one for a live rocket. -/
def getActiveParticleCount (s : EMState) : ℕ :=
  s.activeConfetti.length + s.activeHearts.length +
    (s.activeBolts.foldl
      (fun acc b => acc + b.sparks.length + (if b.rocket.isSome then 1 else 0)) 0) +
    s.activeSparkles.length + s.activeBalloons.length

/-- The confetti color palette. -/
def confettiColors : List String :=
  ["#ffd60a", "#ff5d8f", "#7cf7ff", "#b48bff", "#7CFC00", "#FF8C00"]

/-- The heart color palette. -/
def heartColors : List String := ["#ff4d88", "#ff77a9", "#ff9cc4"]

/-- The balloon color palette. -/
def balloonColors : List String :=
  ["#ff5f5f", "#ffa95f", "#5fffb0", "#5fc3ff", "#c65fff", "#ffd60a", "#ff7bd1", "#9be8ff", "#b4ff9d"]

/-- JS `colors[Math.floor(r * colors.length)]` (out-of-range yields the default). -/
def pickColor (colors : List String) (r : ℚ) : String :=
  colors.getD (⌊r * colors.length⌋).toNat "#ffffff"

/-- `spawnConfetti`: no-ops at the global particle budget, otherwise borrows
from the pool, fills in launch kinematics (portrait or edge-burst variant)
and appends to the active list.  `rand k` is the k-th `Math.random()` draw
of this call, counted per branch in source order. -/
def spawnConfetti (ops : MathOps) (rand : ℕ → ℚ) (canvasWidth canvasHeight : ℚ) (s : EMState) : EMState :=
  if MAX_PARTICLES_TOTAL ≤ getActiveParticleCount s then s
  else
    let (confetti0, pool) := s.confettiPool.get
    let isPortrait := decide (canvasHeight / canvasWidth > 8/5)
    let confetti :=
      if isPortrait then
        let speed := 420 + rand 1 * 360
        let launchAngle := (60 + rand 2 * 25) * ops.pi / 180
        { confetti0 with
          x := rand 0 * canvasWidth
          y := canvasHeight + 10
          vx := (rand 3 - 1/2) * 60
          vy := -speed * ops.sin launchAngle
          life := 18/5 + rand 4 * 9/5
          maxLife := 18/5 + rand 4 * 9/5 }
      else
        let fromLeft := decide (rand 0 < 1/2)
        let edgeSpread : ℚ := 200
        let speed := 360 + rand 2 * 280
        let launchAngle := (30 + rand 3 * 40) * ops.pi / 180
        let dir : ℚ := if fromLeft then 1 else -1
        { confetti0 with
          x := if fromLeft then max 0 (rand 1 * edgeSpread)
               else min canvasWidth (canvasWidth - rand 1 * edgeSpread)
          y := canvasHeight + 10
          vx := dir * speed * ops.cos launchAngle
          vy := -speed * ops.sin launchAngle
          life := 3 + rand 4 * 7/5
          maxLife := 3 + rand 4 * 7/5 }
    let confetti := { confetti with
      rotation := rand 5 * ops.pi * 2
      rotationSpeed := (-240 + rand 6 * 480) * ops.pi / 180
      size := 8 + rand 7 * 10
      color := pickColor confettiColors (rand 8) }
    let shapeRand := rand 9
    let confetti := { confetti with
      shape := if shapeRand < 7/10 then ConfettiShape.rect
               else if shapeRand < 9/10 then ConfettiShape.triangle
               else ConfettiShape.circle
      active := true }
    { s with confettiPool := pool, activeConfetti := s.activeConfetti ++ [confetti] }

/-- `spawnHeart`: borrows from the pool, fills in kinematics and appends.
Note: unlike the confetti/sparkle/bolt spawns, the source performs *no*
global particle-budget check here. -/
def spawnHeart (ops : MathOps) (rand : ℕ → ℚ) (x y : ℚ) (s : EMState) : EMState :=
  let (heart0, pool) := s.heartPool.get
  let spawnX := x + (rand 0 - 1/2) * 220
  let spawnY := y + (rand 1 - 1/2) * 140
  let speed := 50 + rand 2 * (70 - 50)
  let dir : ℚ := if spawnX ≥ x then 1 else -1
  let heart := { heart0 with
    x := spawnX
    y := spawnY
    vx := dir * (10 + rand 3 * 40)
    vy := -(speed * (85/100 + rand 4 * 25/100))
    rotation := (rand 5 - 1/2) * (ops.pi * 2 * (18/360))
    rotationSpeed := (rand 6 - 1/2) * 12/10
    life := 1400/1000 * (9/10 + rand 7 * 25/100)
    maxLife := 1400/1000 * (9/10 + rand 7 * 25/100)
    size := 24 + rand 8 * (44 - 24)
    color := pickColor heartColors (rand 9)
    active := true }
  { s with heartPool := pool, activeHearts := s.activeHearts ++ [heart] }

/-- `spawnSparkle`: no-ops at the global particle budget, otherwise borrows,
fills in kinematics and appends. -/
def spawnSparkle (rand : ℕ → ℚ) (x y : ℚ) (s : EMState) : EMState :=
  if MAX_PARTICLES_TOTAL ≤ getActiveParticleCount s then s
  else
    let (sparkle0, pool) := s.sparklePool.get
    let minSize : ℚ := 12 / 8
    let maxSize : ℚ := min (128 / 8) 20
    let sparkle := { sparkle0 with
      x := x + (rand 0 - 1/2) * 8
      y := y + (rand 1 - 1/2) * 8
      vx := -20 + rand 2 * 40
      vy := 20 + rand 3 * 20
      rotation := 0
      rotationSpeed := 0
      life := 1/2 + rand 4 * 1/4
      maxLife := 1/2 + rand 4 * 1/4
      size := minSize + rand 5 * (maxSize - minSize)
      color := pickColor ["#fff7ad", "#ffe57a", "#fff"] (rand 6)
      active := true }
    { s with sparklePool := pool, activeSparkles := s.activeSparkles ++ [sparkle] }

/-- `spawnBalloon`: borrows, resets, fills in rise/sway parameters, clamps
into the canvas and appends.  No global particle-budget check in the source. -/
def spawnBalloon (ops : MathOps) (rand : ℕ → ℚ) (x y canvasWidth canvasHeight : ℚ)
    (s : EMState) : EMState :=
  let (balloon0, pool) := s.balloonPool.get
  let balloon := BalloonParticle.resetBalloon ops balloon0 (rand 0) (rand 1) (rand 2)
  let balloon := { balloon with
    x := x + (rand 3 - 1/2) * 40
    y := y
    life := 3500/1000
    maxLife := 3500/1000
    color := pickColor balloonColors (rand 4)
    riseSpeed := 3 + rand 5 * (5 - 3)
    swayAmplitude := 1 + rand 6 * (2 - 1)
    swayOffset := rand 7 * ops.pi * 2
    swaySpeed := 6/10 + rand 8 * 1
    active := true }
  let balloon := { balloon with
    x := max 0 (min balloon.x canvasWidth)
    y := max 0 (min balloon.y (canvasHeight + 20)) }
  { s with balloonPool := pool, activeBalloons := s.activeBalloons ++ [balloon] }

/-- `resetEffectForGesture`: deactivate and release (in reverse order) every
active particle of the system of the given gesture, empty its list and zero its
spawn timer. -/
def resetEffectForGesture (gesture : GestureType) (s : EMState) : EMState :=
  match gesture with
  | GestureType.THUMBS_UP_HALO =>
    { s with
      confettiPool := (s.activeConfetti.reverse).foldl
        (fun p c => p.release { c with active := false }) s.confettiPool
      activeConfetti := []
      confettiSpawnTimer := 0 }
  | GestureType.TWO_HAND_HEART =>
    { s with
      heartPool := (s.activeHearts.reverse).foldl
        (fun p h => p.release { h with active := false }) s.heartPool
      activeHearts := []
      heartSpawnTimer := 0 }
  | GestureType.ROCK_SIGN =>
    { s with
      boltPool := (s.activeBolts.reverse).foldl
        (fun p b => p.release { b with active := false }) s.boltPool
      activeBolts := []
      boltSpawnTimer := 0 }
  | GestureType.POINT_SPARKLES =>
    { s with
      sparklePool := (s.activeSparkles.reverse).foldl
        (fun p sp => p.release { sp with active := false }) s.sparklePool
      activeSparkles := []
      sparkleSpawnTimer := 0 }
  | GestureType.PEACE_SIGN =>
    { s with
      balloonPool := (s.activeBalloons.reverse).foldl
        (fun p b => p.release { b with active := false }) s.balloonPool
      activeBalloons := []
      balloonSpawnTimer := 0 }
  | GestureType.NONE => s

/-- The confetti burst loop of `triggerLockEvent`:
`for (i; i < fuel && activeConfetti.length < MAX_CONFETTI; i++) spawnConfetti(...)`.
`randOf i` supplies the draws of iteration `i`. -/
def confettiBurst (ops : MathOps) (randOf : ℕ → ℕ → ℚ) (canvasWidth canvasHeight : ℚ) :
    ℕ → ℕ → EMState → EMState
  | _, 0, s => s
  | i, fuel + 1, s =>
    if s.activeConfetti.length < MAX_CONFETTI then
      confettiBurst ops randOf canvasWidth canvasHeight (i + 1) fuel
        (spawnConfetti ops (randOf i) canvasWidth canvasHeight s)
    else s

/-- The heart burst loop of `triggerLockEvent` (cap `MAX_HEARTS`). -/
def heartBurst (ops : MathOps) (randOf : ℕ → ℕ → ℚ) (x y : ℚ) : ℕ → ℕ → EMState → EMState
  | _, 0, s => s
  | i, fuel + 1, s =>
    if s.activeHearts.length < MAX_HEARTS then
      heartBurst ops randOf x y (i + 1) fuel (spawnHeart ops (randOf i) x y s)
    else s

/-- The sparkle burst loop of `triggerLockEvent` (cap `MAX_SPARKLES`). -/
def sparkleBurst (randOf : ℕ → ℕ → ℚ) (x y : ℚ) : ℕ → ℕ → EMState → EMState
  | _, 0, s => s
  | i, fuel + 1, s =>
    if s.activeSparkles.length < MAX_SPARKLES then
      sparkleBurst randOf x y (i + 1) fuel (spawnSparkle (randOf i) x y s)
    else s

/-- The balloon burst loop of `triggerLockEvent` (cap `MAX_BALLOONS`). -/
def balloonBurst (ops : MathOps) (randOf : ℕ → ℕ → ℚ) (x y canvasWidth canvasHeight : ℚ) :
    ℕ → ℕ → EMState → EMState
  | _, 0, s => s
  | i, fuel + 1, s =>
    if s.activeBalloons.length < MAX_BALLOONS then
      balloonBurst ops randOf x y canvasWidth canvasHeight (i + 1) fuel
        (spawnBalloon ops (randOf i) x y canvasWidth canvasHeight s)
    else s

/-- `triggerLockEvent`: reset the effect state owned by the gesture, then spawn the
one-shot burst (confetti 120, hearts 20, sparkles 30, balloons
`6 + floor(r * 5)`; rock sign spawns nothing here).  `balloonCountDraw` is
the `Math.random()` draw that sizes the balloon burst. -/
def triggerLockEvent (ops : MathOps) (randOf : ℕ → ℕ → ℚ) (balloonCountDraw : ℚ)
    (gesture : GestureType) (canvasWidth canvasHeight : ℚ) (s : EMState) : EMState :=
  let s := resetEffectForGesture gesture s
  match gesture with
  | GestureType.THUMBS_UP_HALO => confettiBurst ops randOf canvasWidth canvasHeight 0 120 s
  | GestureType.TWO_HAND_HEART => heartBurst ops randOf (canvasWidth / 2) (canvasHeight / 2) 0 20 s
  | GestureType.POINT_SPARKLES => sparkleBurst randOf (canvasWidth / 2) (canvasHeight / 2) 0 30 s
  | GestureType.PEACE_SIGN =>
    let balloonCount := (6 + ⌊balloonCountDraw * (10 - 6 + 1)⌋).toNat
    balloonBurst ops randOf (canvasWidth / 2) (canvasHeight / 2) canvasWidth canvasHeight 0
      balloonCount s
  | _ => s

/-- `clear()`: release every active particle to its pool (without touching
its `active` flag — the `forEach` in the source just calls `release`), empty all
five active lists, and reset timers and the gesture-tracking fields. -/
def clear (s : EMState) : EMState :=
  { s with
    confettiPool := s.activeConfetti.foldl (fun p c => p.release c) s.confettiPool
    heartPool := s.activeHearts.foldl (fun p h => p.release h) s.heartPool
    boltPool := s.activeBolts.foldl (fun p b => p.release b) s.boltPool
    sparklePool := s.activeSparkles.foldl (fun p sp => p.release sp) s.sparklePool
    balloonPool := s.activeBalloons.foldl (fun p b => p.release b) s.balloonPool
    activeConfetti := []
    activeHearts := []
    activeBolts := []
    activeSparkles := []
    activeBalloons := []
    time := 0
    lastTime := 0
    confettiSpawnTimer := 0
    heartSpawnTimer := 0
    boltSpawnTimer := 0
    sparkleSpawnTimer := 0
    balloonSpawnTimer := 0
    lastGestureState := GestureType.NONE
    balloonsEnabled := false }

end EffectsManager

/-! ### Per-frame particle updates: the `update` methods of the particle
classes and `updateParticles` -/

/-- `BALLOON_ELLIPSE_HEIGHT` from `constants.ts`. -/
def BALLOON_ELLIPSE_HEIGHT : ℚ := 135

/-- `ConfettiParticle.update(dt, time)`: gravity, air drag, wind
oscillation, position and rotation integration (rotation skipped for
circles), life decay; alive while life stays positive.  An inactive
particle is left untouched and reports dead. -/
def ConfettiParticle.update (ops : MathOps) (dt time : ℚ) (c : ConfettiParticle) :
    ConfettiParticle × Bool :=
  if !c.active then (c, false)
  else
    let vy := c.vy + 95 * dt
    let vx := c.vx * (985/1000)
    let vy := vy * (985/1000)
    let vx := vx + ops.sin (time * (16/10) + c.seed) * 28 * dt
    let x := c.x + vx * dt
    let y := c.y + vy * dt
    let rotation := if c.shape ≠ ConfettiShape.circle then c.rotation + c.rotationSpeed * dt
                    else c.rotation
    let life := c.life - dt
    ({ c with x := x, y := y, vx := vx, vy := vy, rotation := rotation, life := life },
      decide (life > 0))

/-- `HeartParticle.update(dt)`: the sway phase advances by a freshly drawn
random amount each call (`rand 0` is that draw), then a sinusoidal sway is
added onto the base velocity. -/
def HeartParticle.update (ops : MathOps) (rand : ℕ → ℚ) (dt _time : ℚ)
    (h : HeartParticle) : HeartParticle × Bool :=
  if !h.active then (h, false)
  else
    let swayPhase := h.swayPhase + dt * (8/10 + rand 0 * (6/10))
    let sway := ops.sin swayPhase * h.swayAmplitude
    let x := h.x + (h.vx + sway) * dt
    let y := h.y + h.vy * dt
    let rotation := h.rotation + h.rotationSpeed * dt
    let life := h.life - dt
    ({ h with swayPhase := swayPhase, x := x, y := y, rotation := rotation, life := life },
      decide (life > 0))

/-- JS `Math.max(...xs)` over a nonempty list (the empty case, `-Infinity`,
is unreachable where this is used: a white spark is always pushed first). -/
def jsMaxOf (l : List ℚ) : ℚ :=
  match l with
  | [] => 0
  | h :: t => t.foldl max h

/-- `LightningBolt.createSparksAt(x, y)`: push `sparkCount` colored sparks
plus one white highlight spark and set the overall bolt life to the largest
spark `maxLife`.  `rand` enumerates the `Math.random()` draws: draw 0 is
the base count, draws `1+5i` to `5+5i` are the angle, speed, life, size and
color picks of spark `i`, and the three draws from `1 + 5*sparkCount` on
belong to the white spark. -/
def LightningBolt.createSparksAt (ops : MathOps) (rand : ℕ → ℚ) (b : LightningBolt)
    (x y : ℚ) : LightningBolt :=
  let scale : ℚ := match b.rocket with
    | some r => r.explosionScale.getD 1
    | none => 1
  let baseCount : ℤ := 18 + ⌊rand 0 * 10⌋
  let sparkCount : ℕ := (max 6 (jsRound ((baseCount : ℚ) * scale))).toNat
  let colors : List String := ["#ff4d4d", "#4dff7a", "#4d86ff", "#ffd24d"]
  let newSparks : List Spark := (List.range sparkCount).map (fun i =>
    let angle := rand (1 + 5 * i) * ops.pi * 2
    let speed := (180 + rand (2 + 5 * i) * 420) * (9/10 + 6/10 * scale)
    let life := (1/2 + rand (3 + 5 * i) * (9/10)) * (9/10 + 6/10 * scale)
    { x := x, y := y
      vx := ops.cos angle * speed
      vy := ops.sin angle * speed
      life := life, maxLife := life
      size := (5/2 + rand (4 + 5 * i) * 5) * (9/10 + 6/10 * scale)
      color := EffectsManager.pickColor colors (rand (5 + 5 * i)) })
  let whiteBase := 1 + 5 * sparkCount
  let whiteLife := (4/10 + rand whiteBase * (8/10)) * (9/10 + 5/10 * scale)
  let white : Spark :=
    { x := x, y := y
      vx := (rand (whiteBase + 1) - 1/2) * 60 * scale
      vy := -(rand (whiteBase + 2) * 60 * scale)
      life := whiteLife, maxLife := whiteLife
      size := 2 * max (8/10) scale
      color := "#ffffff" }
  let sparks := b.sparks ++ newSparks ++ [white]
  { b with sparks := sparks, life := jsMaxOf (sparks.map Spark.maxLife) }

/-- `LightningBolt.update(dt)`: rocket physics with drag until the rocket
reaches its target height or its life expires — at which point it explodes
and creates the sparks — then spark physics (expired sparks skipped);
alive while the rocket has not exploded or some spark remains alive within
the overall bolt life. -/
def LightningBolt.update (ops : MathOps) (rand : ℕ → ℚ) (dt _time : ℚ)
    (b : LightningBolt) : LightningBolt × Bool :=
  if !b.active then (b, false)
  else
    let b :=
      match b.rocket with
      | some r =>
        if !r.exploded then
          let vy := r.vy + 160 * dt
          let vx := r.vx * (996/1000)
          let vy := vy * (996/1000)
          let x := r.x + vx * dt
          let y := r.y + vy * dt
          let life := r.life - dt
          if y ≤ r.targetY ∨ life ≤ 0 then
            LightningBolt.createSparksAt ops rand
              { b with rocket := some { r with
                  x := x, y := y, vx := vx, vy := vy, life := life, exploded := true } } x y
          else
            { b with rocket := some { r with x := x, y := y, vx := vx, vy := vy, life := life } }
        else b
      | none => b
    let sparks := b.sparks.map (fun sk =>
      if sk.life ≤ 0 then sk
      else
        let vy := sk.vy + 240 * dt
        let vx := sk.vx * (994/1000)
        let vy := vy * (994/1000)
        { sk with
          x := sk.x + vx * dt, y := sk.y + vy * dt, vx := vx, vy := vy, life := sk.life - dt })
    let anyAlive := sparks.any (fun sk => decide (sk.life > 0))
    let life := b.life - dt
    let b2 := { b with sparks := sparks, life := life }
    (b2, (match b2.rocket with | some r => !r.exploded | none => false)
      || (anyAlive && decide (life > 0)))

/-- `SparkleParticle.update(dt, time)`: gravity, horizontal drift, position
and rotation integration, life decay. -/
def SparkleParticle.update (ops : MathOps) (dt time : ℚ) (s : SparkleParticle) :
    SparkleParticle × Bool :=
  if !s.active then (s, false)
  else
    let vy := s.vy + 260 * dt
    let vx := s.vx + ops.sin (time * 2 + s.seed) * 10 * dt
    let x := s.x + vx * dt
    let y := s.y + vy * dt
    let rotation := s.rotation + s.rotationSpeed * dt
    let life := s.life - dt
    ({ s with x := x, y := y, vx := vx, vy := vy, rotation := rotation, life := life },
      decide (life > 0))

/-- `BalloonParticle.update(dt, time)`: rise at the per-instance speed with
sinusoidal sway (both scaled from px/frame to px/s for 60 FPS), life decay. -/
def BalloonParticle.update (ops : MathOps) (dt time : ℚ) (b : BalloonParticle) :
    BalloonParticle × Bool :=
  if !b.active then (b, false)
  else
    let y := b.y - b.riseSpeed * dt * 60
    let swayAmount := ops.sin (time * b.swaySpeed + b.swayOffset) * b.swayAmplitude
    let x := b.x + swayAmount * dt * 60
    let life := b.life - dt
    ({ b with x := x, y := y, life := life }, decide (life > 0))

/-- One sweep of `updateParticles` over one particle system: the JS loop
walks the active list from its last element down to its first, updates each
particle, and for every particle whose step reports removal sets
`active = false`, releases it to the pool, and splices it out of the list.
`step i p` returns the updated particle and whether it is kept; the index
`i` is the position of the particle in the list (used only to address its
per-update random draws); `deact` clears the `active` flag.  Processing
runs last-to-first — so releases enter the pool in that order, exactly as
in the JS loop — and survivors keep their relative order. -/
def updateSweep {P : Type} (step : ℕ → P → P × Bool) (deact : P → P) :
    ℕ → List P → ObjectPool P → List P × ObjectPool P
  | _, [], pool => ([], pool)
  | i, p :: rest, pool =>
    let tailResult := updateSweep step deact (i + 1) rest pool
    let stepped := step i p
    if stepped.2 then (stepped.1 :: tailResult.1, tailResult.2)
    else (tailResult.1, tailResult.2.release (deact stepped.1))

/-- `updateParticles(dt)`: sweep all five systems, removing particles whose
update reports death — confetti additionally when fallen or drifted beyond
the canvas margins, balloons additionally (and without updating them) when
risen fully above the frame.  `heartRand i` and `boltRand i` enumerate the
`Math.random()` draws of the update of the i-th heart and bolt; `cw` and
`ch` are the canvas dimensions read from `this.ctx.canvas`. -/
def EffectsManager.updateParticles (ops : MathOps) (heartRand boltRand : ℕ → ℕ → ℚ)
    (dt cw ch : ℚ) (s : EMState) : EMState :=
  let confettiSwept := updateSweep
    (fun _ c =>
      let stepped := ConfettiParticle.update ops dt s.time c
      (stepped.1, stepped.2 && !(decide (stepped.1.y > ch + 40) || decide (stepped.1.x < -40)
        || decide (stepped.1.x > cw + 40))))
    (fun c => { c with active := false }) 0 s.activeConfetti s.confettiPool
  let heartsSwept := updateSweep
    (fun i h => HeartParticle.update ops (heartRand i) dt s.time h)
    (fun h => { h with active := false }) 0 s.activeHearts s.heartPool
  let boltsSwept := updateSweep
    (fun i b => LightningBolt.update ops (boltRand i) dt s.time b)
    (fun b => { b with active := false }) 0 s.activeBolts s.boltPool
  let sparklesSwept := updateSweep
    (fun _ sp => SparkleParticle.update ops dt s.time sp)
    (fun sp => { sp with active := false }) 0 s.activeSparkles s.sparklePool
  let balloonsSwept := updateSweep
    (fun _ b =>
      if b.y + BALLOON_ELLIPSE_HEIGHT / 2 < 0 then (b, false)
      else BalloonParticle.update ops dt s.time b)
    (fun b => { b with active := false }) 0 s.activeBalloons s.balloonPool
  { s with
    activeConfetti := confettiSwept.1
    confettiPool := confettiSwept.2
    activeHearts := heartsSwept.1
    heartPool := heartsSwept.2
    activeBolts := boltsSwept.1
    boltPool := boltsSwept.2
    activeSparkles := sparklesSwept.1
    sparklePool := sparklesSwept.2
    activeBalloons := balloonsSwept.1
    balloonPool := balloonsSwept.2 }

/-! ## Claim C9: object pool get/release -/

/-- Claim C9: `get()` pops an instance from the free list (the last element,
JS `Array.pop`) or constructs a new one via the factory when the free list is
empty, and `release(obj)` appends the instance to the free list exactly when
the free list currently holds fewer than 50 instances, dropping it otherwise;
hence `release` never grows the free list beyond `max` of its current length
and 50. -/
theorem C9_objectPool_get_release {T : Type} (p : ObjectPool T) (obj : T) :
    (p.pool = [] → p.get = (p.createFn (), p)) ∧
    (∀ l x, p.pool = l ++ [x] → p.get = (x, { p with pool := l })) ∧
    (p.pool.length < 50 → (p.release obj).pool = p.pool ++ [obj]) ∧
    (50 ≤ p.pool.length → p.release obj = p) ∧
    (p.release obj).pool.length ≤ max p.pool.length 50 := by
  refine ⟨?_, ?_, ?_, ?_, ?_⟩
  · intro h
    simp [ObjectPool.get, h]
  · intro l x h
    simp [ObjectPool.get, h, List.getLast?_concat, List.dropLast_concat]
  · intro h
    simp [ObjectPool.release, h]
  · intro h
    simp [ObjectPool.release, Nat.not_lt.mpr h]
  · unfold ObjectPool.release
    split_ifs with h
    · simp only [List.length_append, List.length_singleton]
      omega
    · omega

/-- A concrete pool of naturals for the C9 witness. -/
def natPool : ObjectPool ℕ := { pool := [7, 8], createFn := fun _ => 0 }

/-- Witness for C9 at a concrete two-element pool. -/
theorem C9_objectPool_get_release_witness :
    natPool.get = (8, { natPool with pool := [7] }) ∧
    (natPool.release 3).pool = [7, 8, 3] ∧
    (natPool.release 3).pool.length ≤ max natPool.pool.length 50 := by
  have h := C9_objectPool_get_release natPool 3
  exact ⟨h.2.1 [7] 8 rfl, h.2.2.1 (by decide), h.2.2.2.2⟩

/-! ## Claim C5: coordinate mapping -/

/-- Claim C5 (divergence): the claim says `toPixel` scales the normalized
landmark to source pixels, subtracts the crop origin and rescales.  At the
concrete crop of a 200×100 source onto a 100×100 target the crop origin is
`sx = 50`, and on the landmark `nx = 1/4` the code (`normToCropPx`) returns
x = 25 whereas the claimed pipeline (`specToPixel`) returns x = 0: the code
never subtracts the crop origin. -/
theorem C5_normToCropPx_ignores_crop_origin :
    computeCenteredCrop 200 100 100 100 =
        { sx := 50, sy := 0, sw := 100, sh := 100, tw := 100, th := 100 } ∧
    normToCropPx (1/4) 0 (computeCenteredCrop 200 100 100 100) = (25, 0) ∧
    specToPixel 200 100 (1/4) 0 (computeCenteredCrop 200 100 100 100) = (0, 0) := by
  have hcrop : computeCenteredCrop 200 100 100 100 =
      { sx := 50, sy := 0, sw := 100, sh := 100, tw := 100, th := 100 } := by
    unfold computeCenteredCrop
    rw [if_pos (by norm_num)]
    simp only [CropResult.mk.injEq]
    norm_num [jsRound]
  refine ⟨hcrop, ?_, ?_⟩
  · rw [hcrop]
    simp only [normToCropPx, Prod.mk.injEq]
    norm_num
  · rw [hcrop]
    simp only [specToPixel, Prod.mk.injEq]
    norm_num

/-! ## Lock state machine lemmas -/

namespace GestureClassifier

/-- A locked classifier returns its state unchanged on a matching frame. -/
theorem updateStateCore_locked_same (s : ClassifierState) (tc : GestureType × ℚ)
    (h1 : s.current.locked = true) (h2 : s.current.type = tc.1) :
    updateStateCore s tc = s := by
  simp [updateStateCore, h1, h2]

/-- A locked classifier stays put over any run of matching frames. -/
theorem run_locked_same (l : List (GestureType × ℚ)) (s : ClassifierState)
    (h1 : s.current.locked = true) (hall : ∀ p ∈ l, p.1 = s.current.type) :
    List.foldl updateStateCore s l = s := by
  induction l with
  | nil => rfl
  | cons tc l ih =>
    have hstep : updateStateCore s tc = s :=
      updateStateCore_locked_same s tc h1 (hall tc (List.mem_cons_self tc l)).symm
    simp only [List.foldl_cons, hstep]
    exact ih fun p hp => hall p (List.mem_cons_of_mem tc hp)

/-- A locked classifier on a non-matching frame with grace left just burns
one grace unit. -/
theorem updateStateCore_grace_decr (s : ClassifierState) (tc : GestureType × ℚ)
    (h1 : s.current.locked = true) (h2 : s.current.type ≠ tc.1) (h3 : 0 < s.grace) :
    updateStateCore s tc = { s with grace := s.grace - 1 } := by
  simp [updateStateCore, h1, h2, h3]

/-- A locked classifier on a non-matching frame with no grace left unlocks
and restarts counting at the incoming type. -/
theorem updateStateCore_unlock (s : ClassifierState) (tc : GestureType × ℚ)
    (h1 : s.current.locked = true) (h2 : s.current.type ≠ tc.1) (h3 : s.grace = 0) :
    updateStateCore s tc =
      { current := { type := tc.1, confidence := tc.2, locked := false, stabilityCount := 1 }
        grace := 0 } := by
  simp [updateStateCore, h1, h2, h3]

/-- An unlocked classifier seeing a type that differs from its current one
(or NONE) restarts the count at 1 on the incoming values. -/
theorem updateStateCore_restart (s : ClassifierState) (tc : GestureType × ℚ)
    (h1 : s.current.locked = false) (h2 : s.current.type ≠ tc.1 ∨ tc.1 = GestureType.NONE) :
    updateStateCore s tc =
      { current := { type := tc.1, confidence := tc.2, locked := false, stabilityCount := 1 }
        grace := s.grace } := by
  rcases h2 with h2 | h2
  · by_cases h3 : tc.1 = GestureType.NONE <;> simp [updateStateCore, h1, h2, h3]
  · by_cases h3 : s.current.type = tc.1 <;> simp [updateStateCore, h1, h2, h3]

/-- Stability growth: starting unlocked on type `t` with `1 ≤ count ≤ 29`, a
run of frames all classifying to `t` keeps the type, locks exactly when the
total count reaches `STABILITY_FRAMES`, and fills the grace counter on lock. -/
theorem run_growth (t : GestureType) (ht : t ≠ GestureType.NONE) :
    ∀ (l : List (GestureType × ℚ)) (s : ClassifierState), (∀ p ∈ l, p.1 = t) →
    s.current.type = t → s.current.locked = false →
    1 ≤ s.current.stabilityCount → s.current.stabilityCount ≤ STABILITY_FRAMES - 1 →
    (List.foldl updateStateCore s l).current.type = t ∧
    ((List.foldl updateStateCore s l).current.locked = true ↔
      STABILITY_FRAMES ≤ s.current.stabilityCount + l.length) ∧
    (STABILITY_FRAMES ≤ s.current.stabilityCount + l.length →
      (List.foldl updateStateCore s l).grace = LOST_GRACE_FRAMES) := by
  have hSF : STABILITY_FRAMES = 30 := rfl
  intro l
  induction l with
  | nil =>
    intro s _ hty hlock hk1 hk2
    simp only [List.foldl_nil, List.length_nil, Nat.add_zero]
    refine ⟨hty, ?_, ?_⟩
    · rw [hlock]
      constructor
      · intro h
        exact absurd h Bool.false_ne_true
      · intro h
        exact absurd h (by omega)
    · intro h
      exact absurd h (by omega)
  | cons tc l ih =>
    intro s hall hty hlock hk1 hk2
    have htc : tc.1 = t := hall tc (List.mem_cons_self tc l)
    have hall2 : ∀ p ∈ l, p.1 = t := fun p hp => hall p (List.mem_cons_of_mem tc hp)
    have h2 : s.current.type = tc.1 := by rw [hty, htc]
    have hne : tc.1 ≠ GestureType.NONE := by rw [htc]; exact ht
    by_cases hge : STABILITY_FRAMES ≤ s.current.stabilityCount + 1
    · -- this frame locks
      have hstep : updateStateCore s tc = ClassifierState.mk
          (GestureState.mk s.current.type (max s.current.confidence tc.2) true
            (s.current.stabilityCount + 1)) LOST_GRACE_FRAMES := by
        simp [updateStateCore, hlock, h2, hne, hge]
      have hrest : List.foldl updateStateCore
          (ClassifierState.mk
            (GestureState.mk s.current.type (max s.current.confidence tc.2) true
              (s.current.stabilityCount + 1)) LOST_GRACE_FRAMES) l =
          ClassifierState.mk
            (GestureState.mk s.current.type (max s.current.confidence tc.2) true
              (s.current.stabilityCount + 1)) LOST_GRACE_FRAMES := by
        refine run_locked_same l _ rfl ?_
        intro p hp
        rw [hall2 p hp, hty]
      rw [List.foldl_cons, hstep, hrest]
      refine ⟨hty, ?_, ?_⟩
      · constructor
        · intro _
          simp only [List.length_cons]
          omega
        · intro _
          rfl
      · intro _
        rfl
    · -- still below the threshold
      have hstep : updateStateCore s tc = ClassifierState.mk
          (GestureState.mk s.current.type (max s.current.confidence tc.2) false
            (s.current.stabilityCount + 1)) s.grace := by
        simp [updateStateCore, hlock, h2, hne, hge]
      have hres := ih (ClassifierState.mk
          (GestureState.mk s.current.type (max s.current.confidence tc.2) false
            (s.current.stabilityCount + 1)) s.grace)
        hall2 hty rfl (by dsimp only; omega) (by dsimp only; omega)
      dsimp only at hres
      rw [List.foldl_cons, hstep]
      refine ⟨hres.1, ?_, ?_⟩
      · rw [hres.2.1]
        simp only [List.length_cons]
        omega
      · intro h
        refine hres.2.2 ?_
        simp only [List.length_cons] at h
        omega

/-- Folding `updateState` over frames equals folding the core transition over
the classified pairs. -/
theorem run_frames_eq (ops : MathOps) (s : ClassifierState) (l : List MPResults) :
    List.foldl (updateState ops) s l =
      List.foldl updateStateCore s (l.map (classifyFrame ops)) := by
  induction l generalizing s with
  | nil => rfl
  | cons f l ih => simp only [List.foldl_cons, List.map_cons, updateState, ih]

/-- Mixed run while locked: matching frames leave the state untouched and
each non-matching frame burns one grace unit, as long as the total number of
non-matching frames does not exceed the grace counter. -/
theorem run_locked_mixed (tcs : List (GestureType × ℚ)) :
    ∀ (cur : GestureState) (g : ℕ), cur.locked = true →
    (tcs.countP fun tc => decide (tc.1 ≠ cur.type)) ≤ g →
    List.foldl updateStateCore (ClassifierState.mk cur g) tcs =
      ClassifierState.mk cur (g - (tcs.countP fun tc => decide (tc.1 ≠ cur.type))) := by
  induction tcs with
  | nil =>
    intro cur g _ _
    simp
  | cons tc l ih =>
    intro cur g hlock hcount
    by_cases h : tc.1 = cur.type
    · have hcnt : ((tc :: l).countP fun tc => decide (tc.1 ≠ cur.type)) =
          l.countP fun tc => decide (tc.1 ≠ cur.type) := by
        simp [List.countP_cons, h]
      rw [hcnt] at hcount ⊢
      have hstep := updateStateCore_locked_same (ClassifierState.mk cur g) tc hlock h.symm
      rw [List.foldl_cons, hstep]
      exact ih cur g hlock hcount
    · have hcnt : ((tc :: l).countP fun tc => decide (tc.1 ≠ cur.type)) =
          (l.countP fun tc => decide (tc.1 ≠ cur.type)) + 1 := by
        simp [List.countP_cons, h]
      rw [hcnt] at hcount ⊢
      have hpos : 0 < g := by omega
      have hstep := updateStateCore_grace_decr (ClassifierState.mk cur g) tc hlock
        (fun hh => h hh.symm) hpos
      rw [List.foldl_cons, hstep]
      have hres := ih cur (g - 1) hlock (by omega)
      have harith : g - 1 - (l.countP fun tc => decide (tc.1 ≠ cur.type)) =
          g - ((l.countP fun tc => decide (tc.1 ≠ cur.type)) + 1) := by omega
      rw [harith] at hres
      exact hres

/-- `run_locked_mixed` stated over a whole classifier state. -/
theorem run_locked_mixed_state (tcs : List (GestureType × ℚ)) (s : ClassifierState)
    (hlock : s.current.locked = true)
    (hcount : (tcs.countP fun tc => decide (tc.1 ≠ s.current.type)) ≤ s.grace) :
    List.foldl updateStateCore s tcs =
      ClassifierState.mk s.current
        (s.grace - (tcs.countP fun tc => decide (tc.1 ≠ s.current.type))) := by
  rcases s with ⟨cur, g⟩
  exact run_locked_mixed tcs cur g hlock hcount

end GestureClassifier

/-! ## Concrete instances for witnesses -/

/-- A concrete interpretation of the abstracted library functions, used to
instantiate theorems at concrete inputs. -/
def dummyOps : MathOps where
  sqrt := fun _ => 0
  acosDeg := fun _ => 90
  sin := fun _ => 0
  cos := fun _ => 0
  pi := 3
  sqrt_nonneg := fun _ _ => le_refl 0
  acosDeg_nonneg := fun _ _ _ => by norm_num
  acosDeg_le := fun _ _ _ => by norm_num

/-- A frame with empty pose and hands records — nothing was detected. -/
def emptyFrame : MPResults := {}

/-- A left hand whose thumb tip sits above its thumb IP joint; all finger
landmarks are absent, so every finger angle evaluates to 180° (curled). -/
def thumbHand : Hand := { thumb_tip := some (0, 0), thumb_ip := some (0, 1) }

/-- A frame holding only `thumbHand`, which classifies as a thumbs-up. -/
def thumbFrame : MPResults := { hands := { left := some thumbHand } }

namespace GestureClassifier

/-- A frame with no hand data classifies as NONE with confidence 0: every
detector returns (NONE, 0) when both hand slots are empty. -/
theorem classify_emptyFrame (ops : MathOps) : classifyFrame ops emptyFrame = (GestureType.NONE, 0) := by
  norm_num [classifyFrame, detectThumbsUp, detectTwoHandHeart, detectRockSign,
    detectFingerPoint, detectPeaceSign, bestOfHands, emptyFrame, List.foldl]

/-- Every finger of `thumbHand` reads as fully curled (missing landmarks). -/
theorem thumbHand_angle (fg : Finger) : getFingerAngle dummyOps thumbHand fg = 180 := by
  cases fg <;> rfl

/-- The thumb tip of `thumbHand`. -/
theorem thumbHand_tip : thumbHand.thumb_tip = some (0, 0) := rfl

/-- The thumb IP joint of `thumbHand`. -/
theorem thumbHand_ip : thumbHand.thumb_ip = some (0, 1) := rfl

/-- Under `dummyOps`, `thumbFrame` classifies as a full-confidence thumbs-up. -/
theorem classify_thumbFrame :
    classifyFrame dummyOps thumbFrame = (GestureType.THUMBS_UP_HALO, 1) := by
  norm_num [classifyFrame, thumbFrame, detectThumbsUp, detectTwoHandHeart, bestOfHands,
    detectRockSign, detectFingerPoint, detectPeaceSign, checkThumbsUpHand, checkRockSignHand,
    checkPointHand, checkPeaceSignHand, isFingerCurled, isFingerExtended,
    getFingerCurlConfidence, getFingerExtensionConfidence, thumbHand_angle,
    thumbHand_tip, thumbHand_ip, FINGER_EXTENDED_ANGLE, List.foldl]

/-- Counting over a replicated list. -/
theorem countP_replicate {α : Type} (p : α → Bool) (n : ℕ) (a : α) :
    (List.replicate n a).countP p = if p a then n else 0 := by
  induction n with
  | zero => simp
  | succ n ih =>
    rw [List.replicate_succ, List.countP_cons, ih]
    split_ifs <;> simp_all

/-- State facts after a nonempty run of frames that all classify to the same
non-NONE type, starting from the reset state. -/
theorem run_reset_facts (ops : MathOps) (t : GestureType) (ht : t ≠ GestureType.NONE)
    (f : MPResults) (l : List MPResults) (hf : (classifyFrame ops f).1 = t)
    (hall : ∀ x ∈ l, (classifyFrame ops x).1 = t) :
    (List.foldl (updateState ops) resetClassifierState (f :: l)).current.type = t ∧
    ((List.foldl (updateState ops) resetClassifierState (f :: l)).current.locked = true ↔
      STABILITY_FRAMES ≤ l.length + 1) ∧
    (STABILITY_FRAMES ≤ l.length + 1 →
      (List.foldl (updateState ops) resetClassifierState (f :: l)).grace = LOST_GRACE_FRAMES) := by
  have hSF : STABILITY_FRAMES = 30 := rfl
  rw [run_frames_eq]
  have hstep : updateStateCore resetClassifierState (classifyFrame ops f) =
      ClassifierState.mk (GestureState.mk t (classifyFrame ops f).2 false 1) 0 := by
    have hres := updateStateCore_restart resetClassifierState (classifyFrame ops f) rfl
      (Or.inl (by rw [hf]; exact Ne.symm ht))
    rw [hres, hf]
    rfl
  rw [List.map_cons, List.foldl_cons, hstep]
  have hres := run_growth t ht (l.map (classifyFrame ops))
    (ClassifierState.mk (GestureState.mk t (classifyFrame ops f).2 false 1) 0)
    (by
      intro p hp
      rcases List.mem_map.mp hp with ⟨g, hg, rfl⟩
      exact hall g hg)
    rfl rfl (by norm_num) (by norm_num [STABILITY_FRAMES])
  dsimp only at hres
  refine ⟨hres.1, ?_, ?_⟩
  · rw [hres.2.1]
    simp only [List.length_map]
    omega
  · intro h
    refine hres.2.2 ?_
    simp only [List.length_map]
    omega

end GestureClassifier

/-! ## Claim C1: locking on the 30th consecutive frame -/

/-- Claim C1: from the reset state, a run of frames that all classify to one
non-NONE type leaves `locked` false before the `STABILITY_FRAMES`-th call and
`locked` becomes true exactly from the 30th call on. -/
theorem C1_locks_exactly_on_thirtieth (ops : MathOps) (t : GestureType)
    (ht : t ≠ GestureType.NONE) (l : List MPResults)
    (hall : ∀ f ∈ l, (GestureClassifier.classifyFrame ops f).1 = t) :
    ((List.foldl (GestureClassifier.updateState ops)
        GestureClassifier.resetClassifierState l).current.locked = true) ↔
      STABILITY_FRAMES ≤ l.length := by
  cases l with
  | nil =>
    simp only [List.foldl_nil, List.length_nil]
    constructor
    · intro h
      exact absurd h Bool.false_ne_true
    · intro h
      exact absurd h (by norm_num [STABILITY_FRAMES])
  | cons f l =>
    have hf : (GestureClassifier.classifyFrame ops f).1 = t := hall f (List.mem_cons_self f l)
    have hall2 : ∀ x ∈ l, (GestureClassifier.classifyFrame ops x).1 = t :=
      fun x hx => hall x (List.mem_cons_of_mem f hx)
    have hres := GestureClassifier.run_reset_facts ops t ht f l hf hall2
    rw [hres.2.1]
    simp only [List.length_cons]

/-- Witness for C1: thirty thumbs-up frames lock; twenty-nine do not. -/
theorem C1_locks_exactly_on_thirtieth_witness :
    ((List.foldl (GestureClassifier.updateState dummyOps)
        GestureClassifier.resetClassifierState
        (List.replicate 30 thumbFrame)).current.locked = true) ∧
    ¬ ((List.foldl (GestureClassifier.updateState dummyOps)
        GestureClassifier.resetClassifierState
        (List.replicate 29 thumbFrame)).current.locked = true) := by
  have hall : ∀ n, ∀ f ∈ List.replicate n thumbFrame,
      (GestureClassifier.classifyFrame dummyOps f).1 = GestureType.THUMBS_UP_HALO := by
    intro n f hf
    rw [List.eq_of_mem_replicate hf, GestureClassifier.classify_thumbFrame]
  constructor
  · exact (C1_locks_exactly_on_thirtieth dummyOps GestureType.THUMBS_UP_HALO (by decide)
      (List.replicate 30 thumbFrame) (hall 30)).mpr (by simp [STABILITY_FRAMES])
  · intro h
    have := (C1_locks_exactly_on_thirtieth dummyOps GestureType.THUMBS_UP_HALO (by decide)
      (List.replicate 29 thumbFrame) (hall 29)).mp h
    rw [List.length_replicate] at this
    exact absurd this (by norm_num [STABILITY_FRAMES])

/-! ## Claim C2: grace period length -/

/-- Claim C2 (counterexample): lock with 30 thumbs-up frames, then feed
exactly `LOST_GRACE_FRAMES` = 12 frames with no gesture.  The claim says the
state unlocks within those 12 calls; in fact it is still locked after them
(the 12th call merely brings the grace counter to 0; unlocking happens on
the 13th non-matching call). -/
theorem C2_still_locked_after_twelve :
    (List.foldl (GestureClassifier.updateState dummyOps)
        GestureClassifier.resetClassifierState
        (List.replicate 30 thumbFrame ++ List.replicate 12 emptyFrame)).current.locked = true := by
  rw [List.foldl_append]
  have hrep : List.replicate 30 thumbFrame = thumbFrame :: List.replicate 29 thumbFrame := rfl
  have hall : ∀ x ∈ List.replicate 29 thumbFrame,
      (GestureClassifier.classifyFrame dummyOps x).1 = GestureType.THUMBS_UP_HALO := by
    intro x hx
    rw [List.eq_of_mem_replicate hx, GestureClassifier.classify_thumbFrame]
  have hfacts := GestureClassifier.run_reset_facts dummyOps GestureType.THUMBS_UP_HALO
    (by decide) thumbFrame (List.replicate 29 thumbFrame)
    (by rw [GestureClassifier.classify_thumbFrame]) hall
  rw [← hrep] at hfacts
  have hlen : STABILITY_FRAMES ≤ (List.replicate 29 thumbFrame).length + 1 := by
    simp [STABILITY_FRAMES]
  have hlock := hfacts.2.1.mpr hlen
  have hgrace := hfacts.2.2 hlen
  have htype := hfacts.1
  set s30 := List.foldl (GestureClassifier.updateState dummyOps)
    GestureClassifier.resetClassifierState (List.replicate 30 thumbFrame) with hs30
  have hcount : (((List.replicate 12 emptyFrame).map
      (GestureClassifier.classifyFrame dummyOps)).countP
        fun tc => decide (tc.1 ≠ s30.current.type)) = 12 := by
    rw [List.map_replicate, GestureClassifier.classify_emptyFrame,
      GestureClassifier.countP_replicate, htype]
    simp
  have hmix := GestureClassifier.run_locked_mixed_state
    ((List.replicate 12 emptyFrame).map (GestureClassifier.classifyFrame dummyOps))
    s30 hlock (by rw [hcount, hgrace]; norm_num [LOST_GRACE_FRAMES])
  have hgoal : (List.foldl (GestureClassifier.updateState dummyOps) s30
      (List.replicate 12 emptyFrame)).current.locked = s30.current.locked := by
    rw [GestureClassifier.run_frames_eq, hmix]
  exact hgoal.trans hlock

/-- Claim C2 (amended): from a freshly locked state (grace full at 12),
twelve consecutive non-matching calls each return the locked state unchanged
and merely exhaust the grace counter; the 13th non-matching call unlocks and
restarts stability counting at 1 on the values classified in that call. -/
theorem C2_unlocks_on_thirteenth (ops : MathOps) (s : GestureClassifier.ClassifierState)
    (l1 l2 : List MPResults) (p : MPResults)
    (hlock : s.current.locked = true) (hgrace : s.grace = LOST_GRACE_FRAMES)
    (hlen : (l1 ++ l2).length = LOST_GRACE_FRAMES)
    (hall : ∀ f ∈ l1 ++ l2, (GestureClassifier.classifyFrame ops f).1 ≠ s.current.type)
    (hp : (GestureClassifier.classifyFrame ops p).1 ≠ s.current.type) :
    (List.foldl (GestureClassifier.updateState ops) s l1).current = s.current ∧
    List.foldl (GestureClassifier.updateState ops) s (l1 ++ l2) =
      GestureClassifier.ClassifierState.mk s.current 0 ∧
    GestureClassifier.updateState ops
        (List.foldl (GestureClassifier.updateState ops) s (l1 ++ l2)) p =
      GestureClassifier.ClassifierState.mk
        (GestureClassifier.GestureState.mk (GestureClassifier.classifyFrame ops p).1
          (GestureClassifier.classifyFrame ops p).2 false 1) 0 := by
  have hcount : ∀ l : List MPResults, (∀ f ∈ l, (GestureClassifier.classifyFrame ops f).1 ≠ s.current.type) →
      ((l.map (GestureClassifier.classifyFrame ops)).countP
        fun tc => decide (tc.1 ≠ s.current.type)) = l.length := by
    intro l hl
    rw [List.countP_map]
    rw [List.countP_eq_length]
    intro f hf
    simp only [Function.comp_apply, ne_eq, decide_eq_true_eq]
    exact hl f hf
  have hrun : ∀ l : List MPResults, (∀ f ∈ l, (GestureClassifier.classifyFrame ops f).1 ≠ s.current.type) →
      l.length ≤ LOST_GRACE_FRAMES →
      List.foldl (GestureClassifier.updateState ops) s l =
        GestureClassifier.ClassifierState.mk s.current (LOST_GRACE_FRAMES - l.length) := by
    intro l hl hlenle
    rw [GestureClassifier.run_frames_eq]
    have hmix := GestureClassifier.run_locked_mixed (l.map (GestureClassifier.classifyFrame ops))
      s.current s.grace hlock (by rw [hcount l hl, hgrace]; exact hlenle)
    rw [show (GestureClassifier.ClassifierState.mk s.current s.grace) = s from rfl] at hmix
    rw [hmix, hcount l hl, hgrace]
  have hlen1 : l1.length ≤ LOST_GRACE_FRAMES := by
    rw [← hlen]
    simp
  have hall1 : ∀ f ∈ l1, (GestureClassifier.classifyFrame ops f).1 ≠ s.current.type :=
    fun f hf => hall f (List.mem_append_left l2 hf)
  have h1 := hrun l1 hall1 hlen1
  have h2 := hrun (l1 ++ l2) hall (le_of_eq hlen)
  rw [hlen] at h2
  simp only [Nat.sub_self] at h2
  refine ⟨by rw [h1], h2, ?_⟩
  rw [h2]
  exact GestureClassifier.updateStateCore_unlock _ _ hlock (Ne.symm hp) rfl

/-- A concrete freshly locked classifier state for witnesses. -/
def sLock : GestureClassifier.ClassifierState :=
  GestureClassifier.ClassifierState.mk
    (GestureClassifier.GestureState.mk GestureType.THUMBS_UP_HALO 1 true 30) 12

/-- Witness for the amended C2 at a concrete locked state and 12 + 1 empty
frames. -/
theorem C2_unlocks_on_thirteenth_witness :
    (List.foldl (GestureClassifier.updateState dummyOps) sLock
        (List.replicate 12 emptyFrame)).current = sLock.current ∧
    GestureClassifier.updateState dummyOps
        (List.foldl (GestureClassifier.updateState dummyOps) sLock
          (List.replicate 12 emptyFrame)) emptyFrame =
      GestureClassifier.ClassifierState.mk
        (GestureClassifier.GestureState.mk GestureType.NONE 0 false 1) 0 := by
  have hall : ∀ f ∈ List.replicate 12 emptyFrame ++ ([] : List MPResults),
      (GestureClassifier.classifyFrame dummyOps f).1 ≠ sLock.current.type := by
    intro f hf
    rw [List.append_nil] at hf
    rw [List.eq_of_mem_replicate hf, GestureClassifier.classify_emptyFrame]
    decide
  have h := C2_unlocks_on_thirteenth dummyOps sLock (List.replicate 12 emptyFrame) [] emptyFrame
    rfl rfl (by simp [LOST_GRACE_FRAMES]) hall
    (by rw [GestureClassifier.classify_emptyFrame]; decide)
  refine ⟨h.1, ?_⟩
  have h3 := h.2.2
  rw [List.append_nil] at h3
  rw [h3, GestureClassifier.classify_emptyFrame]

/-! ## Claim C10: grace accounting across interruptions -/

/-- Claim C10: while locked, matching frames never restore the grace counter
and each non-matching frame burns one unit, so non-matching frames accumulate
across separate interruptions; once the total reaches the grace budget, the
next non-matching frame unlocks and restarts counting on its classified
values, no matter how many matching frames intervened. -/
theorem C10_nonmatching_frames_accumulate (ops : MathOps)
    (s : GestureClassifier.ClassifierState) (l : List MPResults) (p : MPResults)
    (hlock : s.current.locked = true)
    (hcount : (l.countP fun f =>
        decide ((GestureClassifier.classifyFrame ops f).1 ≠ s.current.type)) ≤ s.grace) :
    List.foldl (GestureClassifier.updateState ops) s l =
      GestureClassifier.ClassifierState.mk s.current
        (s.grace - (l.countP fun f =>
          decide ((GestureClassifier.classifyFrame ops f).1 ≠ s.current.type))) ∧
    ((l.countP fun f =>
        decide ((GestureClassifier.classifyFrame ops f).1 ≠ s.current.type)) = s.grace →
      (GestureClassifier.classifyFrame ops p).1 ≠ s.current.type →
      GestureClassifier.updateState ops
          (List.foldl (GestureClassifier.updateState ops) s l) p =
        GestureClassifier.ClassifierState.mk
          (GestureClassifier.GestureState.mk (GestureClassifier.classifyFrame ops p).1
            (GestureClassifier.classifyFrame ops p).2 false 1) 0) := by
  have hcomp : ((l.map (GestureClassifier.classifyFrame ops)).countP
      fun tc => decide (tc.1 ≠ s.current.type)) =
      (l.countP fun f =>
        decide ((GestureClassifier.classifyFrame ops f).1 ≠ s.current.type)) := by
    rw [List.countP_map]
    rfl
  have hmix := GestureClassifier.run_locked_mixed (l.map (GestureClassifier.classifyFrame ops))
    s.current s.grace hlock (by rw [hcomp]; exact hcount)
  rw [show (GestureClassifier.ClassifierState.mk s.current s.grace) = s from rfl] at hmix
  rw [hcomp] at hmix
  have h1 : List.foldl (GestureClassifier.updateState ops) s l =
      GestureClassifier.ClassifierState.mk s.current
        (s.grace - (l.countP fun f =>
          decide ((GestureClassifier.classifyFrame ops f).1 ≠ s.current.type))) := by
    rw [GestureClassifier.run_frames_eq, hmix]
  refine ⟨h1, ?_⟩
  intro hfull hp
  rw [h1, hfull]
  simp only [Nat.sub_self]
  exact GestureClassifier.updateStateCore_unlock _ _ hlock (Ne.symm hp) rfl

/-- A 24-frame sequence alternating 12 interruptions with 12 matching
thumbs-up frames. -/
def mixedFrames : List MPResults :=
  List.flatten (List.replicate 12 [emptyFrame, thumbFrame])

/-- Witness for C10: after 12 interruptions spread between matching frames,
one more empty frame unlocks `sLock` and restarts counting at NONE. -/
theorem C10_nonmatching_frames_accumulate_witness :
    GestureClassifier.updateState dummyOps
        (List.foldl (GestureClassifier.updateState dummyOps) sLock mixedFrames) emptyFrame =
      GestureClassifier.ClassifierState.mk
        (GestureClassifier.GestureState.mk GestureType.NONE 0 false 1) 0 := by
  have hcnt : (mixedFrames.countP fun f =>
      decide ((GestureClassifier.classifyFrame dummyOps f).1 ≠ sLock.current.type)) = 12 := by
    have hpair : ([emptyFrame, thumbFrame].countP fun f =>
        decide ((GestureClassifier.classifyFrame dummyOps f).1 ≠ sLock.current.type)) = 1 := by
      simp [List.countP_cons, GestureClassifier.classify_emptyFrame,
        GestureClassifier.classify_thumbFrame, sLock]
    rw [mixedFrames, List.countP_flatten, List.map_replicate, hpair]
    simp
  have h := C10_nonmatching_frames_accumulate dummyOps sLock mixedFrames emptyFrame rfl
    (by rw [hcnt]; norm_num [sLock])
  have h2 := h.2 (by rw [hcnt]; rfl) (by rw [GestureClassifier.classify_emptyFrame]; decide)
  rw [h2, GestureClassifier.classify_emptyFrame]

/-! ## Claim C3: best-of-five selection -/

namespace GestureClassifier

/-- The step function of the JS `reduce` in `classifyFrame`. -/
def bestStep (best current : GestureType × ℚ) : GestureType × ℚ :=
  if current.2 > best.2 then current else best

/-- The left fold with `bestStep` picks, out of `init :: l`, the first
element attaining the maximal confidence: the list splits around the result
with every earlier element strictly below it and every element at most it. -/
theorem foldlBest_spec (init : GestureType × ℚ) (l : List (GestureType × ℚ)) :
    ∃ l1 l2, init :: l = l1 ++ List.foldl bestStep init l :: l2 ∧
      (∀ g ∈ init :: l, g.2 ≤ (List.foldl bestStep init l).2) ∧
      (∀ g ∈ l1, g.2 < (List.foldl bestStep init l).2) := by
  induction l generalizing init with
  | nil =>
    refine ⟨[], [], rfl, ?_, ?_⟩
    · intro g hg
      rw [List.mem_singleton] at hg
      rw [hg]
      exact le_refl _
    · intro g hg
      exact absurd hg (List.not_mem_nil g)
  | cons a l ih =>
    by_cases h : a.2 > init.2
    · have hstep : bestStep init a = a := by simp [bestStep, h]
      rcases ih a with ⟨l1, l2, hsplit, hmax, hstrict⟩
      have hr : List.foldl bestStep init (a :: l) = List.foldl bestStep a l := by
        rw [List.foldl_cons, hstep]
      refine ⟨init :: l1, l2, ?_, ?_, ?_⟩
      · rw [hr, List.cons_append, ← hsplit]
      · intro g hg
        rw [hr]
        rcases List.mem_cons.mp hg with hg | hg
        · subst hg
          have ha : a.2 ≤ (List.foldl bestStep a l).2 := hmax a (List.mem_cons_self a l)
          exact le_of_lt (lt_of_lt_of_le h ha)
        · exact hmax g hg
      · intro g hg
        rw [hr]
        rcases List.mem_cons.mp hg with hg | hg
        · subst hg
          have ha : a.2 ≤ (List.foldl bestStep a l).2 := hmax a (List.mem_cons_self a l)
          exact lt_of_lt_of_le h ha
        · exact hstrict g hg
    · have hstep : bestStep init a = init := by simp [bestStep, h]
      rcases ih init with ⟨l1, l2, hsplit, hmax, hstrict⟩
      have hr : List.foldl bestStep init (a :: l) = List.foldl bestStep init l := by
        rw [List.foldl_cons, hstep]
      have hini : init.2 ≤ (List.foldl bestStep init l).2 :=
        hmax init (List.mem_cons_self init l)
      have hals : a.2 ≤ init.2 := not_lt.mp h
      cases l1 with
      | nil =>
        simp only [List.nil_append] at hsplit
        obtain ⟨h1, h2⟩ := List.cons_eq_cons.mp hsplit
        refine ⟨[], a :: l2, ?_, ?_, ?_⟩
        · rw [hr, List.nil_append, ← h1, ← h2]
        · intro g hg
          rw [hr]
          rcases List.mem_cons.mp hg with hg | hg
          · subst hg
            exact hini
          · rcases List.mem_cons.mp hg with hg | hg
            · subst hg
              exact le_trans hals hini
            · exact hmax g (List.mem_cons_of_mem init hg)
        · intro g hg
          exact absurd hg (List.not_mem_nil g)
      | cons b l1 =>
        rw [List.cons_append] at hsplit
        obtain ⟨h1, h2⟩ := List.cons_eq_cons.mp hsplit
        have hbstrict : b.2 < (List.foldl bestStep init l).2 :=
          hstrict b (List.mem_cons_self b l1)
        have hinitlt : init.2 < (List.foldl bestStep init l).2 := h1 ▸ hbstrict
        refine ⟨init :: a :: l1, l2, ?_, ?_, ?_⟩
        · rw [hr, List.cons_append, List.cons_append, ← h2]
        · intro g hg
          rw [hr]
          rcases List.mem_cons.mp hg with hg | hg
          · subst hg
            exact le_of_lt hinitlt
          · rcases List.mem_cons.mp hg with hg | hg
            · subst hg
              exact le_trans hals (le_of_lt hinitlt)
            · exact hmax g (List.mem_cons_of_mem init hg)
        · intro g hg
          rw [hr]
          rcases List.mem_cons.mp hg with hg | hg
          · subst hg
            exact hinitlt
          · rcases List.mem_cons.mp hg with hg | hg
            · subst hg
              exact lt_of_le_of_lt hals hinitlt
            · exact hstrict g (List.mem_cons_of_mem b hg)

end GestureClassifier

/-- Claim C3: on a frame carrying no hand data — in particular on one that
also carries no pose data, which `classifyFrame` never reads — the result is
(NONE, 0); and on every frame `classifyFrame` returns the detector result
with the highest confidence among thumbs-up, heart, rock, point, peace (in
that order), ties broken in favor of the earlier detector: the detector
list splits around the returned value with every earlier result strictly
lower and every result at most it.  (The JS guard that would return
(NONE, 0) directly is dead code: `pose` and `hands` are required, always
truthy, fields of `MPResults`.) -/
theorem C3_classifyFrame_selects_best (ops : MathOps) (r : MPResults) :
    (r.hands.left = none → r.hands.right = none →
      GestureClassifier.classifyFrame ops r = (GestureType.NONE, 0)) ∧
    (∃ l1 l2,
      [GestureClassifier.detectThumbsUp ops r, GestureClassifier.detectTwoHandHeart ops r,
        GestureClassifier.detectRockSign ops r, GestureClassifier.detectFingerPoint ops r,
        GestureClassifier.detectPeaceSign ops r] =
          l1 ++ GestureClassifier.classifyFrame ops r :: l2 ∧
      (∀ g ∈ [GestureClassifier.detectThumbsUp ops r, GestureClassifier.detectTwoHandHeart ops r,
        GestureClassifier.detectRockSign ops r, GestureClassifier.detectFingerPoint ops r,
        GestureClassifier.detectPeaceSign ops r],
          g.2 ≤ (GestureClassifier.classifyFrame ops r).2) ∧
      (∀ g ∈ l1, g.2 < (GestureClassifier.classifyFrame ops r).2)) := by
  constructor
  · intro h1 h2
    norm_num [GestureClassifier.classifyFrame, GestureClassifier.detectThumbsUp,
      GestureClassifier.detectTwoHandHeart, GestureClassifier.detectRockSign,
      GestureClassifier.detectFingerPoint, GestureClassifier.detectPeaceSign,
      GestureClassifier.bestOfHands, h1, h2, List.foldl]
  · have hcf : GestureClassifier.classifyFrame ops r =
        List.foldl GestureClassifier.bestStep (GestureClassifier.detectThumbsUp ops r)
          [GestureClassifier.detectTwoHandHeart ops r, GestureClassifier.detectRockSign ops r,
            GestureClassifier.detectFingerPoint ops r, GestureClassifier.detectPeaceSign ops r] :=
      rfl
    rw [hcf]
    exact GestureClassifier.foldlBest_spec _ _

/-- Witness for C3: the no-hand-data conjunct at the empty frame and the
max-selection conjunct at the one-hand thumbs-up frame. -/
theorem C3_classifyFrame_selects_best_witness :
    GestureClassifier.classifyFrame dummyOps emptyFrame = (GestureType.NONE, 0) ∧
    (∃ l1 l2,
      [GestureClassifier.detectThumbsUp dummyOps thumbFrame,
        GestureClassifier.detectTwoHandHeart dummyOps thumbFrame,
        GestureClassifier.detectRockSign dummyOps thumbFrame,
        GestureClassifier.detectFingerPoint dummyOps thumbFrame,
        GestureClassifier.detectPeaceSign dummyOps thumbFrame] =
          l1 ++ GestureClassifier.classifyFrame dummyOps thumbFrame :: l2 ∧
      (∀ g ∈ [GestureClassifier.detectThumbsUp dummyOps thumbFrame,
        GestureClassifier.detectTwoHandHeart dummyOps thumbFrame,
        GestureClassifier.detectRockSign dummyOps thumbFrame,
        GestureClassifier.detectFingerPoint dummyOps thumbFrame,
        GestureClassifier.detectPeaceSign dummyOps thumbFrame],
          g.2 ≤ (GestureClassifier.classifyFrame dummyOps thumbFrame).2) ∧
      (∀ g ∈ l1, g.2 < (GestureClassifier.classifyFrame dummyOps thumbFrame).2)) :=
  ⟨(C3_classifyFrame_selects_best dummyOps emptyFrame).1 rfl rfl,
    (C3_classifyFrame_selects_best dummyOps thumbFrame).2⟩

/-! ## Claim C8: confidences stay in the unit interval -/

namespace GestureClassifier

/-- The finger angle always lands in `[0, 180]`. -/
theorem getFingerAngle_mem (ops : MathOps) (hand : Hand) (fg : Finger) :
    0 ≤ getFingerAngle ops hand fg ∧ getFingerAngle ops hand fg ≤ 180 := by
  unfold getFingerAngle
  split
  · dsimp only
    split_ifs
    · norm_num
    · exact ⟨ops.acosDeg_nonneg _ (le_max_left _ _) (max_le (by norm_num) (min_le_left _ _)),
        ops.acosDeg_le _ (le_max_left _ _) (max_le (by norm_num) (min_le_left _ _))⟩
  · norm_num

/-- Curl confidence is in `[0, 1]`. -/
theorem getFingerCurlConfidence_mem (ops : MathOps) (hand : Hand) (fg : Finger) :
    0 ≤ getFingerCurlConfidence ops hand fg ∧ getFingerCurlConfidence ops hand fg ≤ 1 := by
  obtain ⟨h0, h1⟩ := getFingerAngle_mem ops hand fg
  unfold getFingerCurlConfidence
  refine ⟨le_max_left _ _, max_le (by norm_num) ?_⟩
  rw [div_le_one (by norm_num [FINGER_EXTENDED_ANGLE])]
  simp only [FINGER_EXTENDED_ANGLE]
  linarith

/-- Extension confidence is in `[0, 1]`. -/
theorem getFingerExtensionConfidence_mem (ops : MathOps) (hand : Hand) (fg : Finger) :
    0 ≤ getFingerExtensionConfidence ops hand fg ∧
      getFingerExtensionConfidence ops hand fg ≤ 1 := by
  obtain ⟨h0, h1⟩ := getFingerAngle_mem ops hand fg
  unfold getFingerExtensionConfidence
  refine ⟨le_max_left _ _, max_le (by norm_num) ?_⟩
  have hq : 0 ≤ getFingerAngle ops hand fg / FINGER_EXTENDED_ANGLE :=
    div_nonneg h0 (by norm_num [FINGER_EXTENDED_ANGLE])
  linarith

/-- Landmark distances are nonnegative. -/
theorem distance_nonneg (ops : MathOps) (p1 p2 : ℚ × ℚ) : 0 ≤ distance ops p1 p2 := by
  unfold distance
  exact ops.sqrt_nonneg _ (add_nonneg (mul_self_nonneg _) (mul_self_nonneg _))

/-- Complement of a unit-interval value stays in the unit interval. -/
theorem one_sub_mem (a : ℚ) (h : 0 ≤ a ∧ a ≤ 1) : 0 ≤ 1 - a ∧ 1 - a ≤ 1 := by
  constructor <;> linarith [h.1, h.2]

/-- Mean of four unit-interval values stays in the unit interval. -/
theorem avg4_mem (a b c d : ℚ) (ha : 0 ≤ a ∧ a ≤ 1) (hb : 0 ≤ b ∧ b ≤ 1)
    (hc : 0 ≤ c ∧ c ≤ 1) (hd : 0 ≤ d ∧ d ≤ 1) :
    0 ≤ (a + b + c + d) / 4 ∧ (a + b + c + d) / 4 ≤ 1 := by
  constructor
  · refine div_nonneg ?_ (by norm_num)
    linarith [ha.1, hb.1, hc.1, hd.1]
  · rw [div_le_one (by norm_num)]
    linarith [ha.2, hb.2, hc.2, hd.2]

/-- Mean of five unit-interval values stays in the unit interval. -/
theorem avg5_mem (a b c d e : ℚ) (ha : 0 ≤ a ∧ a ≤ 1) (hb : 0 ≤ b ∧ b ≤ 1)
    (hc : 0 ≤ c ∧ c ≤ 1) (hd : 0 ≤ d ∧ d ≤ 1) (he : 0 ≤ e ∧ e ≤ 1) :
    0 ≤ (a + b + c + d + e) / 5 ∧ (a + b + c + d + e) / 5 ≤ 1 := by
  constructor
  · refine div_nonneg ?_ (by norm_num)
    linarith [ha.1, hb.1, hc.1, hd.1, he.1]
  · rw [div_le_one (by norm_num)]
    linarith [ha.2, hb.2, hc.2, hd.2, he.2]

/-- The clamped separation ratio of the peace detector is in `[0, 1]`. -/
theorem sep_conf_mem (sep denom : ℚ) (hsep : 0 ≤ sep) (hd : 0 ≤ denom) :
    0 ≤ min 1 (sep / denom) ∧ min 1 (sep / denom) ≤ 1 :=
  ⟨le_min zero_le_one (div_nonneg hsep hd), min_le_left _ _⟩

/-- The heart confidence formula is in `[0, 1]` for nonnegative distances. -/
theorem heart_conf_mem (d1 d2 : ℚ) (h1 : 0 ≤ d1) (h2 : 0 ≤ d2) :
    0 ≤ max 0 (1 - (d1 + d2) / 2 / HEART_THRESHOLD) ∧
      max 0 (1 - (d1 + d2) / 2 / HEART_THRESHOLD) ≤ 1 := by
  refine ⟨le_max_left _ _, max_le zero_le_one ?_⟩
  have hq : 0 ≤ (d1 + d2) / 2 / HEART_THRESHOLD := by
    refine div_nonneg (div_nonneg (by linarith) (by norm_num)) ?_
    norm_num [HEART_THRESHOLD]
  linarith

/-- The thumbs-up per-hand confidence is in `[0, 1]`. -/
theorem checkThumbsUpHand_mem (ops : MathOps) (hand : Hand) :
    0 ≤ (checkThumbsUpHand ops hand).2 ∧ (checkThumbsUpHand ops hand).2 ≤ 1 := by
  unfold checkThumbsUpHand
  split
  · dsimp only
    split_ifs <;>
      first
        | exact ⟨le_refl 0, zero_le_one⟩
        | exact avg5_mem _ _ _ _ _ (by norm_num)
            (getFingerCurlConfidence_mem ops hand .index)
            (getFingerCurlConfidence_mem ops hand .middle)
            (getFingerCurlConfidence_mem ops hand .ring)
            (getFingerCurlConfidence_mem ops hand .pinky)
  · exact ⟨le_refl 0, zero_le_one⟩

/-- The rock-sign per-hand confidence is in `[0, 1]`. -/
theorem checkRockSignHand_mem (ops : MathOps) (hand : Hand) :
    0 ≤ (checkRockSignHand ops hand).2 ∧ (checkRockSignHand ops hand).2 ≤ 1 := by
  unfold checkRockSignHand
  dsimp only
  split_ifs
  · exact avg4_mem _ _ _ _
      (getFingerExtensionConfidence_mem ops hand .index)
      (getFingerExtensionConfidence_mem ops hand .pinky)
      (one_sub_mem _ (getFingerExtensionConfidence_mem ops hand .middle))
      (one_sub_mem _ (getFingerExtensionConfidence_mem ops hand .ring))
  · exact ⟨le_refl 0, zero_le_one⟩

/-- The point per-hand confidence is in `[0, 1]`. -/
theorem checkPointHand_mem (ops : MathOps) (hand : Hand) :
    0 ≤ (checkPointHand ops hand).2 ∧ (checkPointHand ops hand).2 ≤ 1 := by
  unfold checkPointHand
  dsimp only
  split_ifs
  · exact avg4_mem _ _ _ _
      (getFingerExtensionConfidence_mem ops hand .index)
      (one_sub_mem _ (getFingerExtensionConfidence_mem ops hand .middle))
      (one_sub_mem _ (getFingerExtensionConfidence_mem ops hand .ring))
      (one_sub_mem _ (getFingerExtensionConfidence_mem ops hand .pinky))
  · exact ⟨le_refl 0, zero_le_one⟩

/-- Shape of the peace per-hand result: the confidence is `some 0` (a guard
failed), `none` (the JS NaN of the degenerate `0 / 0` separation ratio), or
a five-term average lying in `[0, 1]`. -/
theorem checkPeaceSignHand_shape (ops : MathOps) (hand : Hand) :
    (checkPeaceSignHand ops hand).2 = some 0 ∨
    (checkPeaceSignHand ops hand).2 = none ∨
    ∃ c, (checkPeaceSignHand ops hand).2 = some c ∧ 0 ≤ c ∧ c ≤ 1 := by
  unfold checkPeaceSignHand
  dsimp only
  split_ifs with hg
  · split
    · split
      · split_ifs with ht hd hs
        · exact Or.inr (Or.inl rfl)
        · refine Or.inr (Or.inr ⟨_, rfl, ?_⟩)
          exact avg5_mem _ _ _ _ _
            (getFingerExtensionConfidence_mem ops hand .index)
            (getFingerExtensionConfidence_mem ops hand .middle)
            (one_sub_mem _ (getFingerExtensionConfidence_mem ops hand .ring))
            (one_sub_mem _ (getFingerExtensionConfidence_mem ops hand .pinky))
            ⟨zero_le_one, le_refl 1⟩
        · refine Or.inr (Or.inr ⟨_, rfl, ?_⟩)
          exact avg5_mem _ _ _ _ _
            (getFingerExtensionConfidence_mem ops hand .index)
            (getFingerExtensionConfidence_mem ops hand .middle)
            (one_sub_mem _ (getFingerExtensionConfidence_mem ops hand .ring))
            (one_sub_mem _ (getFingerExtensionConfidence_mem ops hand .pinky))
            (sep_conf_mem _ _ (distance_nonneg ops _ _)
              (mul_nonneg (mul_nonneg (by norm_num) (distance_nonneg ops _ _)) (by norm_num)))
        · exact Or.inl rfl
      · exact Or.inl rfl
    · exact Or.inl rfl
  · exact Or.inl rfl

/-- Every non-NaN peace per-hand confidence is in `[0, 1]`. -/
theorem checkPeaceSignHand_some_mem (ops : MathOps) (hand : Hand) (c : ℚ)
    (hc : (checkPeaceSignHand ops hand).2 = some c) : 0 ≤ c ∧ c ≤ 1 := by
  rcases checkPeaceSignHand_shape ops hand with h | h | ⟨d, hd, hmem⟩
  · rw [h] at hc
    injection hc with hc0
    subst hc0
    norm_num
  · rw [h] at hc
    exact Option.noConfusion hc
  · rw [hd] at hc
    injection hc with hc0
    subst hc0
    exact hmem

/-- The best-of-hands combinator keeps confidences in `[0, 1]`. -/
theorem bestOfHands_mem (check : Hand → GestureType × ℚ)
    (hcheck : ∀ h, 0 ≤ (check h).2 ∧ (check h).2 ≤ 1) (r : MPResults) :
    0 ≤ (bestOfHands check r).2 ∧ (bestOfHands check r).2 ≤ 1 := by
  unfold bestOfHands
  dsimp only
  split
  · split_ifs
    · exact hcheck _
    · split
      · split_ifs
        · exact hcheck _
        · exact ⟨le_refl 0, zero_le_one⟩
      · exact ⟨le_refl 0, zero_le_one⟩
  · split
    · split_ifs
      · exact hcheck _
      · exact ⟨le_refl 0, zero_le_one⟩
    · exact ⟨le_refl 0, zero_le_one⟩

/-- The two-hand heart confidence is in `[0, 1]`. -/
theorem detectTwoHandHeart_mem (ops : MathOps) (r : MPResults) :
    0 ≤ (detectTwoHandHeart ops r).2 ∧ (detectTwoHandHeart ops r).2 ≤ 1 := by
  unfold detectTwoHandHeart
  split
  · split
    · dsimp only
      split_ifs
      · exact heart_conf_mem _ _ (distance_nonneg ops _ _) (distance_nonneg ops _ _)
      · exact ⟨le_refl 0, zero_le_one⟩
    · exact ⟨le_refl 0, zero_le_one⟩
  · exact ⟨le_refl 0, zero_le_one⟩

/-- The peace detector confidence is in `[0, 1]`: the JS comparison `NaN > x`
is false, so a NaN per-hand result never replaces the running best. -/
theorem detectPeaceSign_mem (ops : MathOps) (r : MPResults) :
    0 ≤ (detectPeaceSign ops r).2 ∧ (detectPeaceSign ops r).2 ≤ 1 := by
  unfold detectPeaceSign
  dsimp only
  rcases hl : r.hands.left with _ | lh
  · rcases hr : r.hands.right with _ | rh
    · exact ⟨le_refl 0, zero_le_one⟩
    · dsimp only
      rcases hcr : (checkPeaceSignHand ops rh).2 with _ | cr
      · exact ⟨le_refl 0, zero_le_one⟩
      · dsimp only
        split_ifs
        · exact checkPeaceSignHand_some_mem ops rh cr hcr
        · exact ⟨le_refl 0, zero_le_one⟩
  · dsimp only
    rcases hcl : (checkPeaceSignHand ops lh).2 with _ | cl
    · dsimp only
      rcases hr : r.hands.right with _ | rh
      · exact ⟨le_refl 0, zero_le_one⟩
      · dsimp only
        rcases hcr : (checkPeaceSignHand ops rh).2 with _ | cr
        · exact ⟨le_refl 0, zero_le_one⟩
        · dsimp only
          split_ifs
          · exact checkPeaceSignHand_some_mem ops rh cr hcr
          · exact ⟨le_refl 0, zero_le_one⟩
    · dsimp only
      rcases hr : r.hands.right with _ | rh
      · dsimp only
        split_ifs
        · exact checkPeaceSignHand_some_mem ops lh cl hcl
        · exact ⟨le_refl 0, zero_le_one⟩
      · dsimp only
        rcases hcr : (checkPeaceSignHand ops rh).2 with _ | cr
        · dsimp only
          split_ifs
          · exact checkPeaceSignHand_some_mem ops lh cl hcl
          · exact ⟨le_refl 0, zero_le_one⟩
        · dsimp only
          split_ifs
          · exact checkPeaceSignHand_some_mem ops rh cr hcr
          · exact checkPeaceSignHand_some_mem ops lh cl hcl
          · exact checkPeaceSignHand_some_mem ops rh cr hcr
          · exact ⟨le_refl 0, zero_le_one⟩

end GestureClassifier

/-- Claim C8 (amended): for each of the five detectors and every input
frame, the returned confidence lies in the closed interval `[0, 1]` — for
the peace detector this holds even though its per-hand check can compute a
NaN confidence (see the counterexample), because the best-of-hands
comparison discards NaN results (`NaN > x` is false in JS). -/
theorem C8_detector_confidence_in_unit_interval (ops : MathOps) (r : MPResults) :
    (0 ≤ (GestureClassifier.detectThumbsUp ops r).2 ∧
      (GestureClassifier.detectThumbsUp ops r).2 ≤ 1) ∧
    (0 ≤ (GestureClassifier.detectTwoHandHeart ops r).2 ∧
      (GestureClassifier.detectTwoHandHeart ops r).2 ≤ 1) ∧
    (0 ≤ (GestureClassifier.detectRockSign ops r).2 ∧
      (GestureClassifier.detectRockSign ops r).2 ≤ 1) ∧
    (0 ≤ (GestureClassifier.detectFingerPoint ops r).2 ∧
      (GestureClassifier.detectFingerPoint ops r).2 ≤ 1) ∧
    (0 ≤ (GestureClassifier.detectPeaceSign ops r).2 ∧
      (GestureClassifier.detectPeaceSign ops r).2 ≤ 1) :=
  ⟨GestureClassifier.bestOfHands_mem _ (GestureClassifier.checkThumbsUpHand_mem ops) r,
    GestureClassifier.detectTwoHandHeart_mem ops r,
    GestureClassifier.bestOfHands_mem _ (GestureClassifier.checkRockSignHand_mem ops) r,
    GestureClassifier.bestOfHands_mem _ (GestureClassifier.checkPointHand_mem ops) r,
    GestureClassifier.detectPeaceSign_mem ops r⟩

/-- A concrete interpretation for reaching the degenerate peace-sign input:
`sqrt` is the identity (so a zero squared distance gives distance 0) and
`acos` of every clamped cosine is 0° (fingers with present landmarks read as
extended). -/
def nanOps : MathOps where
  sqrt := fun x => x
  acosDeg := fun _ => 0
  sin := fun _ => 0
  cos := fun _ => 0
  pi := 3
  sqrt_nonneg := fun _ hx => hx
  acosDeg_nonneg := fun _ _ _ => le_refl 0
  acosDeg_le := fun _ _ _ => by norm_num

/-- A hand passing every peace-sign guard with zero palm width (the pinky
MCP coincides with the index MCP) and coincident index and middle tips:
the JS separation ratio is `0 / 0`.  Ring and pinky read as curled because
their PIP/TIP landmarks are missing (angle 180°). -/
def nanHand : Hand :=
  { wrist := some (0, 10)
    index_mcp := some (0, 5)
    index_pip := some (0, 3)
    index_tip := some (0, 1)
    middle_mcp := some (1, 5)
    middle_pip := some (1, 3)
    middle_tip := some (0, 1)
    pinky_mcp := some (0, 5) }

/-- Claim C8 (counterexample): on `nanHand` every guard of the peace check
passes while the palm width is 0 and the index and middle tips coincide, so
the JS separation ratio is `0 / 0 = NaN` and `checkPeaceSignHand` returns a
NaN confidence (modelled `none`) — not a number in `[0, 1]`; the claimed
unit-interval bound fails for the per-hand peace check at this input. -/
theorem C8_peace_check_confidence_nan :
    GestureClassifier.checkPeaceSignHand nanOps nanHand = (GestureType.PEACE_SIGN, none) := by
  norm_num [GestureClassifier.checkPeaceSignHand, GestureClassifier.isFingerExtended,
    GestureClassifier.getFingerAngle, GestureClassifier.getFingerExtensionConfidence,
    GestureClassifier.distance, Hand.fingerMcp, Hand.fingerPip, Hand.fingerTip,
    nanHand, nanOps, FINGER_EXTENDED_ANGLE]

/-- The NaN produced by the degenerate peace-sign hand is then discarded by
the JS best-of-hands comparison (`NaN > 0` is false), so the peace detector
itself still returns (NONE, 0) on a frame holding that hand. -/
theorem detectPeaceSign_swallows_nan :
    GestureClassifier.detectPeaceSign nanOps { hands := { left := some nanHand } } =
      (GestureType.NONE, 0) := by
  norm_num [GestureClassifier.detectPeaceSign, GestureClassifier.checkPeaceSignHand,
    GestureClassifier.isFingerExtended, GestureClassifier.getFingerAngle,
    GestureClassifier.getFingerExtensionConfidence, GestureClassifier.distance,
    Hand.fingerMcp, Hand.fingerPip, Hand.fingerTip, nanHand, nanOps, FINGER_EXTENDED_ANGLE]

/-! ## Effects engine lemmas -/

namespace EffectsManager

/-- Folding `release` over a list appends every element once while the free
list stays within the 50 cap. -/
theorem releaseAll_append {T : Type} (l : List T) :
    ∀ (p : ObjectPool T), p.pool.length + l.length ≤ 50 →
    (List.foldl (fun q x => q.release x) p l).pool = p.pool ++ l := by
  induction l with
  | nil =>
    intro p _
    simp
  | cons x l ih =>
    intro p hlen
    simp only [List.length_cons] at hlen
    have hlt : p.pool.length < 50 := by omega
    have hrel : p.release x = { p with pool := p.pool ++ [x] } := by
      simp [ObjectPool.release, hlt]
    rw [List.foldl_cons, hrel,
      ih _ (by simp only [List.length_append, List.length_singleton]; omega)]
    simp

/-- Folding `release` over a list never grows the free list beyond the
larger of its current length and the 50 cap. -/
theorem releaseAll_length_le {T : Type} (l : List T) :
    ∀ (p : ObjectPool T),
    (List.foldl (fun q x => q.release x) p l).pool.length ≤ max p.pool.length 50 := by
  induction l with
  | nil =>
    intro p
    simp
  | cons x l ih =>
    intro p
    rw [List.foldl_cons]
    refine le_trans (ih (p.release x)) ?_
    unfold ObjectPool.release
    split_ifs with h
    · simp only [List.length_append, List.length_singleton]
      omega
    · omega

/-- Folding `release` over a list keeps every pool entry either an original
entry or one of the released elements. -/
theorem releaseAll_mem {T : Type} (l : List T) :
    ∀ (p : ObjectPool T) (q : T),
      q ∈ (List.foldl (fun a x => a.release x) p l).pool → q ∈ p.pool ∨ q ∈ l := by
  induction l with
  | nil =>
    intro p q hq
    simp only [List.foldl_nil] at hq
    exact Or.inl hq
  | cons x l ih =>
    intro p q hq
    rw [List.foldl_cons] at hq
    rcases ih _ _ hq with h | h
    · unfold ObjectPool.release at h
      split_ifs at h
      · simp only [List.mem_append, List.mem_singleton] at h
        rcases h with h | h
        · exact Or.inl h
        · exact Or.inr (by simp [h])
      · exact Or.inl h
    · exact Or.inr (List.mem_cons_of_mem _ h)

/-- Every `updateSweep` pass partitions the processed list: the resulting
pool is the original pool with one deactivated release per removed
particle, and survivors plus removals account for every particle exactly
once. -/
theorem updateSweep_spec {P : Type} (step : ℕ → P → P × Bool) (deact : P → P) :
    ∀ (i : ℕ) (l : List P) (pool : ObjectPool P),
      ∃ dead : List P,
        (updateSweep step deact i l pool).2 =
          List.foldl (fun a x => a.release x) pool (dead.map deact) ∧
        (updateSweep step deact i l pool).1.length + dead.length = l.length := by
  intro i l
  induction l generalizing i with
  | nil =>
    intro pool
    exact ⟨[], rfl, rfl⟩
  | cons p rest ih =>
    intro pool
    obtain ⟨dead, hpool, hlen⟩ := ih (i + 1) pool
    simp only [updateSweep]
    by_cases hkeep : (step i p).2 = true
    · rw [if_pos hkeep]
      refine ⟨dead, hpool, ?_⟩
      simp only [List.length_cons]
      omega
    · rw [if_neg hkeep]
      refine ⟨dead ++ [(step i p).1], ?_, ?_⟩
      · rw [List.map_append, List.foldl_append, ← hpool]
        rfl
      · simp only [List.length_append, List.length_cons, List.length_nil]
        omega

/-- Everything an `updateSweep` pass adds to the pool has been deactivated:
after the sweep, a pool entry is an original entry or has a cleared flag
(for any flag reading `getA` that `deact` clears). -/
theorem updateSweep_pool_inactive {P : Type} (step : ℕ → P → P × Bool) (deact : P → P)
    (getA : P → Bool) (hdeact : ∀ p, getA (deact p) = false) :
    ∀ (i : ℕ) (l : List P) (pool : ObjectPool P) (q : P),
      q ∈ (updateSweep step deact i l pool).2.pool →
        q ∈ pool.pool ∨ getA q = false := by
  intro i l pool q hq
  obtain ⟨dead, hpool, -⟩ := updateSweep_spec step deact i l pool
  rw [hpool] at hq
  rcases releaseAll_mem _ _ _ hq with h | h
  · exact Or.inl h
  · rcases List.mem_map.mp h with ⟨p, -, rfl⟩
    exact Or.inr (hdeact p)

end EffectsManager

/-! ## Claim C4: the global particle budget -/

/-- A pool with an empty free list, for building concrete states. -/
def emptyConfettiPool : ObjectPool ConfettiParticle := ⟨[], fun _ => {}⟩

/-- Heart pool with an empty free list. -/
def emptyHeartPool : ObjectPool HeartParticle := ⟨[], fun _ => {}⟩

/-- Bolt pool with an empty free list. -/
def emptyBoltPool : ObjectPool LightningBolt := ⟨[], fun _ => {}⟩

/-- Sparkle pool with an empty free list. -/
def emptySparklePool : ObjectPool SparkleParticle := ⟨[], fun _ => {}⟩

/-- Balloon pool with an empty free list. -/
def emptyBalloonPool : ObjectPool BalloonParticle := ⟨[], fun _ => {}⟩

/-- A state at the global particle budget: 160 active confetti and 140
active sparkles (300 total), hearts below their per-system cap. -/
def c4State : EMState :=
  { confettiPool := emptyConfettiPool
    heartPool := emptyHeartPool
    boltPool := emptyBoltPool
    sparklePool := emptySparklePool
    balloonPool := emptyBalloonPool
    activeConfetti := List.replicate 160 ({ active := true } : ConfettiParticle)
    activeSparkles := List.replicate 140 ({ active := true } : SparkleParticle) }

set_option maxRecDepth 4000 in
/-- Claim C4 (code bug): with the manager exactly at the 300-particle global
budget, `spawnHeart` still spawns — it performs no budget check — and the
total rises to 301.  (Confetti, sparkle and bolt spawns do carry the check.) -/
theorem C4_spawnHeart_exceeds_global_cap :
    EffectsManager.getActiveParticleCount c4State = MAX_PARTICLES_TOTAL ∧
    c4State.activeHearts.length < MAX_HEARTS ∧
    EffectsManager.getActiveParticleCount
      (EffectsManager.spawnHeart dummyOps (fun _ => 0) 0 0 c4State) =
        MAX_PARTICLES_TOTAL + 1 := by
  refine ⟨rfl, by decide, rfl⟩

/-! ## Claim C6: particle/pool exclusivity and clear() -/

/-- A state with a single active confetti particle (flag set) and empty
pools. -/
def c6State : EMState :=
  { confettiPool := emptyConfettiPool
    heartPool := emptyHeartPool
    boltPool := emptyBoltPool
    sparklePool := emptySparklePool
    balloonPool := emptyBalloonPool
    activeConfetti := [({ active := true } : ConfettiParticle)] }

/-- Claim C6 (counterexample): after `clear()`, the previously active
confetti particle sits in the pool with `active` still `true` — `clear`
releases without resetting the flag, so "in its pool with active=false"
fails. -/
theorem C6_clear_pools_particle_with_active_true :
    (EffectsManager.clear c6State).activeConfetti = [] ∧
    ((EffectsManager.clear c6State).confettiPool.pool.map (fun p => p.active)) = [true] :=
  ⟨rfl, rfl⟩

/-- Claim C6 (amended): particles leave the active lists only through a
deactivate-and-release discipline.  `updateParticles` releases, per system,
exactly one pooled instance for each particle it removes — the remaining
actives plus the releases account for the previous active list exactly —
and each released particle has `active` set to `false` before release, so
every pool entry `updateParticles` adds is inactive; `clear()` empties all
five active lists and releases every previously active particle to its pool
exactly once (the pool becomes the old pool extended by the old active list
whenever that fits under the 50-entry release cap; beyond the cap excess
instances are dropped), each pool length staying bounded by the larger of
its previous length and 50 — but `clear` does not reset the `active` flags
(they are reset lazily when a particle is respawned), so a particle pooled
by `clear` can still carry `active = true`. -/
theorem C6_release_discipline_amended (ops : MathOps) (heartRand boltRand : ℕ → ℕ → ℚ)
    (dt cw ch : ℚ) (s : EMState) :
    (EffectsManager.clear s).activeConfetti = [] ∧
    (EffectsManager.clear s).activeHearts = [] ∧
    (EffectsManager.clear s).activeBolts = [] ∧
    (EffectsManager.clear s).activeSparkles = [] ∧
    (EffectsManager.clear s).activeBalloons = [] ∧
    (s.confettiPool.pool.length + s.activeConfetti.length ≤ 50 →
      (EffectsManager.clear s).confettiPool.pool = s.confettiPool.pool ++ s.activeConfetti) ∧
    (s.heartPool.pool.length + s.activeHearts.length ≤ 50 →
      (EffectsManager.clear s).heartPool.pool = s.heartPool.pool ++ s.activeHearts) ∧
    (s.boltPool.pool.length + s.activeBolts.length ≤ 50 →
      (EffectsManager.clear s).boltPool.pool = s.boltPool.pool ++ s.activeBolts) ∧
    (s.sparklePool.pool.length + s.activeSparkles.length ≤ 50 →
      (EffectsManager.clear s).sparklePool.pool = s.sparklePool.pool ++ s.activeSparkles) ∧
    (s.balloonPool.pool.length + s.activeBalloons.length ≤ 50 →
      (EffectsManager.clear s).balloonPool.pool = s.balloonPool.pool ++ s.activeBalloons) ∧
    (EffectsManager.clear s).confettiPool.pool.length ≤ max s.confettiPool.pool.length 50 ∧
    (EffectsManager.clear s).heartPool.pool.length ≤ max s.heartPool.pool.length 50 ∧
    (EffectsManager.clear s).boltPool.pool.length ≤ max s.boltPool.pool.length 50 ∧
    (EffectsManager.clear s).sparklePool.pool.length ≤ max s.sparklePool.pool.length 50 ∧
    (EffectsManager.clear s).balloonPool.pool.length ≤ max s.balloonPool.pool.length 50 ∧
    (∃ dead : List ConfettiParticle,
      (EffectsManager.updateParticles ops heartRand boltRand dt cw ch s).confettiPool =
        List.foldl (fun a x => a.release x) s.confettiPool
          (dead.map (fun c => { c with active := false })) ∧
      (EffectsManager.updateParticles ops heartRand boltRand dt cw ch s).activeConfetti.length
        + dead.length = s.activeConfetti.length) ∧
    (∃ dead : List HeartParticle,
      (EffectsManager.updateParticles ops heartRand boltRand dt cw ch s).heartPool =
        List.foldl (fun a x => a.release x) s.heartPool
          (dead.map (fun h => { h with active := false })) ∧
      (EffectsManager.updateParticles ops heartRand boltRand dt cw ch s).activeHearts.length
        + dead.length = s.activeHearts.length) ∧
    (∃ dead : List LightningBolt,
      (EffectsManager.updateParticles ops heartRand boltRand dt cw ch s).boltPool =
        List.foldl (fun a x => a.release x) s.boltPool
          (dead.map (fun b => { b with active := false })) ∧
      (EffectsManager.updateParticles ops heartRand boltRand dt cw ch s).activeBolts.length
        + dead.length = s.activeBolts.length) ∧
    (∃ dead : List SparkleParticle,
      (EffectsManager.updateParticles ops heartRand boltRand dt cw ch s).sparklePool =
        List.foldl (fun a x => a.release x) s.sparklePool
          (dead.map (fun sp => { sp with active := false })) ∧
      (EffectsManager.updateParticles ops heartRand boltRand dt cw ch s).activeSparkles.length
        + dead.length = s.activeSparkles.length) ∧
    (∃ dead : List BalloonParticle,
      (EffectsManager.updateParticles ops heartRand boltRand dt cw ch s).balloonPool =
        List.foldl (fun a x => a.release x) s.balloonPool
          (dead.map (fun b => { b with active := false })) ∧
      (EffectsManager.updateParticles ops heartRand boltRand dt cw ch s).activeBalloons.length
        + dead.length = s.activeBalloons.length) ∧
    (∀ q ∈ (EffectsManager.updateParticles ops heartRand boltRand dt cw ch s).confettiPool.pool,
      q ∈ s.confettiPool.pool ∨ q.active = false) ∧
    (∀ q ∈ (EffectsManager.updateParticles ops heartRand boltRand dt cw ch s).heartPool.pool,
      q ∈ s.heartPool.pool ∨ q.active = false) ∧
    (∀ q ∈ (EffectsManager.updateParticles ops heartRand boltRand dt cw ch s).boltPool.pool,
      q ∈ s.boltPool.pool ∨ q.active = false) ∧
    (∀ q ∈ (EffectsManager.updateParticles ops heartRand boltRand dt cw ch s).sparklePool.pool,
      q ∈ s.sparklePool.pool ∨ q.active = false) ∧
    (∀ q ∈ (EffectsManager.updateParticles ops heartRand boltRand dt cw ch s).balloonPool.pool,
      q ∈ s.balloonPool.pool ∨ q.active = false) :=
  ⟨rfl, rfl, rfl, rfl, rfl,
    fun h => EffectsManager.releaseAll_append s.activeConfetti s.confettiPool h,
    fun h => EffectsManager.releaseAll_append s.activeHearts s.heartPool h,
    fun h => EffectsManager.releaseAll_append s.activeBolts s.boltPool h,
    fun h => EffectsManager.releaseAll_append s.activeSparkles s.sparklePool h,
    fun h => EffectsManager.releaseAll_append s.activeBalloons s.balloonPool h,
    EffectsManager.releaseAll_length_le s.activeConfetti s.confettiPool,
    EffectsManager.releaseAll_length_le s.activeHearts s.heartPool,
    EffectsManager.releaseAll_length_le s.activeBolts s.boltPool,
    EffectsManager.releaseAll_length_le s.activeSparkles s.sparklePool,
    EffectsManager.releaseAll_length_le s.activeBalloons s.balloonPool,
    EffectsManager.updateSweep_spec _ _ 0 s.activeConfetti s.confettiPool,
    EffectsManager.updateSweep_spec _ _ 0 s.activeHearts s.heartPool,
    EffectsManager.updateSweep_spec _ _ 0 s.activeBolts s.boltPool,
    EffectsManager.updateSweep_spec _ _ 0 s.activeSparkles s.sparklePool,
    EffectsManager.updateSweep_spec _ _ 0 s.activeBalloons s.balloonPool,
    fun q hq => EffectsManager.updateSweep_pool_inactive _ _ (fun p => p.active)
      (fun _ => rfl) 0 s.activeConfetti s.confettiPool q hq,
    fun q hq => EffectsManager.updateSweep_pool_inactive _ _ (fun p => p.active)
      (fun _ => rfl) 0 s.activeHearts s.heartPool q hq,
    fun q hq => EffectsManager.updateSweep_pool_inactive _ _ (fun p => p.active)
      (fun _ => rfl) 0 s.activeBolts s.boltPool q hq,
    fun q hq => EffectsManager.updateSweep_pool_inactive _ _ (fun p => p.active)
      (fun _ => rfl) 0 s.activeSparkles s.sparklePool q hq,
    fun q hq => EffectsManager.updateSweep_pool_inactive _ _ (fun p => p.active)
      (fun _ => rfl) 0 s.activeBalloons s.balloonPool q hq⟩

/-- Witness for the amended C6 at the one-particle state. -/
theorem C6_release_discipline_amended_witness :
    (EffectsManager.clear c6State).activeConfetti = [] ∧
    (EffectsManager.clear c6State).confettiPool.pool =
      c6State.confettiPool.pool ++ c6State.activeConfetti ∧
    ∃ dead : List ConfettiParticle,
      (EffectsManager.updateParticles dummyOps (fun _ _ => 0) (fun _ _ => 0) 1 100 100
          c6State).activeConfetti.length + dead.length = c6State.activeConfetti.length := by
  have h := C6_release_discipline_amended dummyOps (fun _ _ => 0) (fun _ _ => 0) 1 100 100 c6State
  refine ⟨h.1, h.2.2.2.2.2.1 (by decide), ?_⟩
  obtain ⟨dead, -, hlen⟩ := h.2.2.2.2.2.2.2.2.2.2.2.2.2.2.2.1
  exact ⟨dead, hlen⟩

/-! ## Claim C7: lock-event bursts -/

namespace EffectsManager

/-- `spawnConfetti` is a no-op at the global budget. -/
theorem spawnConfetti_full (ops : MathOps) (rand : ℕ → ℚ) (cw ch : ℚ) (s : EMState)
    (h : MAX_PARTICLES_TOTAL ≤ getActiveParticleCount s) :
    spawnConfetti ops rand cw ch s = s := by
  simp [spawnConfetti, h]

/-- Below the budget, `spawnConfetti` swaps the pool and appends one
confetti to the active list, touching nothing else. -/
theorem spawnConfetti_shape (ops : MathOps) (rand : ℕ → ℚ) (cw ch : ℚ) (s : EMState)
    (h : ¬ MAX_PARTICLES_TOTAL ≤ getActiveParticleCount s) :
    ∃ (c : ConfettiParticle) (pool2 : ObjectPool ConfettiParticle),
      spawnConfetti ops rand cw ch s =
        { s with confettiPool := pool2, activeConfetti := s.activeConfetti ++ [c] } := by
  rcases hget : s.confettiPool.get with ⟨c0, pool⟩
  simp only [spawnConfetti, if_neg h, hget]
  exact ⟨_, _, rfl⟩

/-- Below the budget, `spawnConfetti` adds exactly one active confetti and
one to the global count. -/
theorem spawnConfetti_count (ops : MathOps) (rand : ℕ → ℚ) (cw ch : ℚ) (s : EMState)
    (h : getActiveParticleCount s < MAX_PARTICLES_TOTAL) :
    (spawnConfetti ops rand cw ch s).activeConfetti.length = s.activeConfetti.length + 1 ∧
    getActiveParticleCount (spawnConfetti ops rand cw ch s) =
      getActiveParticleCount s + 1 := by
  obtain ⟨c, pool2, hs⟩ := spawnConfetti_shape ops rand cw ch s (by omega)
  rw [hs]
  constructor
  · simp
  · simp [getActiveParticleCount]
    omega

/-- `spawnHeart` swaps the pool and appends one heart to the active list,
touching nothing else — in particular it never consults the global budget. -/
theorem spawnHeart_shape (ops : MathOps) (rand : ℕ → ℚ) (x y : ℚ) (s : EMState) :
    ∃ (hp : HeartParticle) (pool2 : ObjectPool HeartParticle),
      spawnHeart ops rand x y s =
        { s with heartPool := pool2, activeHearts := s.activeHearts ++ [hp] } := by
  rcases hget : s.heartPool.get with ⟨h0, pool⟩
  simp only [spawnHeart, hget]
  exact ⟨_, _, rfl⟩

/-- `spawnHeart` always adds exactly one active heart and one to the global
count, regardless of the budget. -/
theorem spawnHeart_count (ops : MathOps) (rand : ℕ → ℚ) (x y : ℚ) (s : EMState) :
    (spawnHeart ops rand x y s).activeHearts.length = s.activeHearts.length + 1 ∧
    getActiveParticleCount (spawnHeart ops rand x y s) =
      getActiveParticleCount s + 1 := by
  obtain ⟨hp, pool2, hs⟩ := spawnHeart_shape ops rand x y s
  rw [hs]
  constructor
  · simp
  · simp [getActiveParticleCount]
    omega

/-- `spawnSparkle` is a no-op at the global budget. -/
theorem spawnSparkle_full (rand : ℕ → ℚ) (x y : ℚ) (s : EMState)
    (h : MAX_PARTICLES_TOTAL ≤ getActiveParticleCount s) :
    spawnSparkle rand x y s = s := by
  simp [spawnSparkle, h]

/-- Below the budget, `spawnSparkle` swaps the pool and appends one sparkle
to the active list. -/
theorem spawnSparkle_shape (rand : ℕ → ℚ) (x y : ℚ) (s : EMState)
    (h : ¬ MAX_PARTICLES_TOTAL ≤ getActiveParticleCount s) :
    ∃ (sp : SparkleParticle) (pool2 : ObjectPool SparkleParticle),
      spawnSparkle rand x y s =
        { s with sparklePool := pool2, activeSparkles := s.activeSparkles ++ [sp] } := by
  rcases hget : s.sparklePool.get with ⟨sp0, pool⟩
  simp only [spawnSparkle, if_neg h, hget]
  exact ⟨_, _, rfl⟩

/-- Below the budget, `spawnSparkle` adds exactly one active sparkle and one
to the global count. -/
theorem spawnSparkle_count (rand : ℕ → ℚ) (x y : ℚ) (s : EMState)
    (h : getActiveParticleCount s < MAX_PARTICLES_TOTAL) :
    (spawnSparkle rand x y s).activeSparkles.length = s.activeSparkles.length + 1 ∧
    getActiveParticleCount (spawnSparkle rand x y s) = getActiveParticleCount s + 1 := by
  obtain ⟨sp, pool2, hs⟩ := spawnSparkle_shape rand x y s (by omega)
  rw [hs]
  constructor
  · simp
  · simp [getActiveParticleCount]
    omega

/-- `spawnBalloon` swaps the pool and appends one balloon to the active
list, touching nothing else. -/
theorem spawnBalloon_shape (ops : MathOps) (rand : ℕ → ℚ) (x y cw ch : ℚ) (s : EMState) :
    ∃ (b : BalloonParticle) (pool2 : ObjectPool BalloonParticle),
      spawnBalloon ops rand x y cw ch s =
        { s with balloonPool := pool2, activeBalloons := s.activeBalloons ++ [b] } := by
  rcases hget : s.balloonPool.get with ⟨b0, pool⟩
  simp only [spawnBalloon, hget]
  exact ⟨_, _, rfl⟩

/-- `spawnBalloon` always adds exactly one active balloon. -/
theorem spawnBalloon_count (ops : MathOps) (rand : ℕ → ℚ) (x y cw ch : ℚ) (s : EMState) :
    (spawnBalloon ops rand x y cw ch s).activeBalloons.length =
      s.activeBalloons.length + 1 := by
  obtain ⟨b, pool2, hs⟩ := spawnBalloon_shape ops rand x y cw ch s
  rw [hs]
  simp

/-- Size of the confetti burst: bounded by the fuel, the per-system cap and
the remaining global budget. -/
theorem confettiBurst_length (ops : MathOps) (randOf : ℕ → ℕ → ℚ) (cw ch : ℚ) :
    ∀ (fuel i : ℕ) (s : EMState),
    (confettiBurst ops randOf cw ch i fuel s).activeConfetti.length =
      s.activeConfetti.length +
        min fuel (min (MAX_CONFETTI - s.activeConfetti.length)
          (MAX_PARTICLES_TOTAL - getActiveParticleCount s)) := by
  intro fuel
  induction fuel with
  | zero =>
    intro i s
    simp [confettiBurst]
  | succ fuel ih =>
    intro i s
    have hM : MAX_CONFETTI = 160 := rfl
    have hP : MAX_PARTICLES_TOTAL = 300 := rfl
    rw [confettiBurst]
    split_ifs with hlen
    · by_cases hcnt : getActiveParticleCount s < MAX_PARTICLES_TOTAL
      · obtain ⟨h1, h2⟩ := spawnConfetti_count ops (randOf i) cw ch s hcnt
        rw [ih (i + 1) _, h1, h2]
        omega
      · have hfull : MAX_PARTICLES_TOTAL ≤ getActiveParticleCount s := by omega
        rw [spawnConfetti_full ops (randOf i) cw ch s hfull, ih (i + 1) s]
        omega
    · omega

/-- Size of the heart burst: bounded only by the fuel and the per-system
cap — no global-budget term. -/
theorem heartBurst_length (ops : MathOps) (randOf : ℕ → ℕ → ℚ) (x y : ℚ) :
    ∀ (fuel i : ℕ) (s : EMState),
    (heartBurst ops randOf x y i fuel s).activeHearts.length =
      s.activeHearts.length + min fuel (MAX_HEARTS - s.activeHearts.length) := by
  intro fuel
  induction fuel with
  | zero =>
    intro i s
    simp [heartBurst]
  | succ fuel ih =>
    intro i s
    have hH : MAX_HEARTS = 70 := rfl
    rw [heartBurst]
    split_ifs with hlen
    · rw [ih (i + 1) _, (spawnHeart_count ops (randOf i) x y s).1]
      omega
    · omega

/-- Size of the sparkle burst: bounded by the fuel, the per-system cap and
the remaining global budget. -/
theorem sparkleBurst_length (randOf : ℕ → ℕ → ℚ) (x y : ℚ) :
    ∀ (fuel i : ℕ) (s : EMState),
    (sparkleBurst randOf x y i fuel s).activeSparkles.length =
      s.activeSparkles.length +
        min fuel (min (MAX_SPARKLES - s.activeSparkles.length)
          (MAX_PARTICLES_TOTAL - getActiveParticleCount s)) := by
  intro fuel
  induction fuel with
  | zero =>
    intro i s
    simp [sparkleBurst]
  | succ fuel ih =>
    intro i s
    have hM : MAX_SPARKLES = 160 := rfl
    have hP : MAX_PARTICLES_TOTAL = 300 := rfl
    rw [sparkleBurst]
    split_ifs with hlen
    · by_cases hcnt : getActiveParticleCount s < MAX_PARTICLES_TOTAL
      · obtain ⟨h1, h2⟩ := spawnSparkle_count (randOf i) x y s hcnt
        rw [ih (i + 1) _, h1, h2]
        omega
      · have hfull : MAX_PARTICLES_TOTAL ≤ getActiveParticleCount s := by omega
        rw [spawnSparkle_full (randOf i) x y s hfull, ih (i + 1) s]
        omega
    · omega

/-- Size of the balloon burst: bounded only by the fuel and the per-system
cap — no global-budget term. -/
theorem balloonBurst_length (ops : MathOps) (randOf : ℕ → ℕ → ℚ) (x y cw ch : ℚ) :
    ∀ (fuel i : ℕ) (s : EMState),
    (balloonBurst ops randOf x y cw ch i fuel s).activeBalloons.length =
      s.activeBalloons.length + min fuel (MAX_BALLOONS - s.activeBalloons.length) := by
  intro fuel
  induction fuel with
  | zero =>
    intro i s
    simp [balloonBurst]
  | succ fuel ih =>
    intro i s
    have hB : MAX_BALLOONS = 20 := rfl
    rw [balloonBurst]
    split_ifs with hlen
    · rw [ih (i + 1) _, spawnBalloon_count ops (randOf i) x y cw ch s]
      omega
    · omega

/-- `resetEffectForGesture` for the thumbs-up empties the confetti list and
leaves every other active list untouched. -/
theorem reset_thumbs_projections (s : EMState) :
    (resetEffectForGesture GestureType.THUMBS_UP_HALO s).activeConfetti = [] ∧
    (resetEffectForGesture GestureType.THUMBS_UP_HALO s).activeHearts = s.activeHearts ∧
    (resetEffectForGesture GestureType.THUMBS_UP_HALO s).activeBolts = s.activeBolts ∧
    (resetEffectForGesture GestureType.THUMBS_UP_HALO s).activeSparkles = s.activeSparkles ∧
    (resetEffectForGesture GestureType.THUMBS_UP_HALO s).activeBalloons = s.activeBalloons :=
  ⟨rfl, rfl, rfl, rfl, rfl⟩

/-- The global count after clearing the confetti system. -/
theorem reset_thumbs_count (s : EMState) :
    getActiveParticleCount (resetEffectForGesture GestureType.THUMBS_UP_HALO s) =
      getActiveParticleCount s - s.activeConfetti.length := by
  simp only [getActiveParticleCount, resetEffectForGesture]
  simp
  omega

/-- The global count after clearing the sparkle system. -/
theorem reset_point_count (s : EMState) :
    getActiveParticleCount (resetEffectForGesture GestureType.POINT_SPARKLES s) =
      getActiveParticleCount s - s.activeSparkles.length := by
  simp only [getActiveParticleCount, resetEffectForGesture]
  simp
  omega

end EffectsManager

/-- A state holding 70 active hearts and 160 active sparkles (230 total)
left over from earlier gestures. -/
def c7State : EMState :=
  { confettiPool := emptyConfettiPool
    heartPool := emptyHeartPool
    boltPool := emptyBoltPool
    sparklePool := emptySparklePool
    balloonPool := emptyBalloonPool
    activeHearts := List.replicate 70 ({ active := true } : HeartParticle)
    activeSparkles := List.replicate 160 ({ active := true } : SparkleParticle) }

set_option maxRecDepth 8000 in
/-- Claim C7 (counterexample): a THUMBS_UP_HALO lock event fired while 230
particles from other systems are active spawns only 70 confetti — the burst
loop hits the 300 global budget — so the confetti active-list size is not
min(120, MAX_CONFETTI) = 120. -/
theorem C7_confetti_burst_truncated_by_budget :
    (EffectsManager.triggerLockEvent dummyOps (fun _ _ => 0) 0 GestureType.THUMBS_UP_HALO
        100 100 c7State).activeConfetti.length = 70 ∧
    (70 : ℕ) ≠ min 120 MAX_CONFETTI := by
  constructor
  · have htr : EffectsManager.triggerLockEvent dummyOps (fun _ _ => 0) 0
        GestureType.THUMBS_UP_HALO 100 100 c7State =
        EffectsManager.confettiBurst dummyOps (fun _ _ => 0) 100 100 0 120
          (EffectsManager.resetEffectForGesture GestureType.THUMBS_UP_HALO c7State) := rfl
    rw [htr, EffectsManager.confettiBurst_length]
    have h1 : (EffectsManager.resetEffectForGesture GestureType.THUMBS_UP_HALO
        c7State).activeConfetti.length = 0 := rfl
    have h2 : EffectsManager.getActiveParticleCount
        (EffectsManager.resetEffectForGesture GestureType.THUMBS_UP_HALO c7State) = 230 := rfl
    rw [h1, h2]
    decide
  · decide

/-- Claim C7 (amended): on a lock event the effect is first cleared and then
burst-spawned, but the burst sizes are also clipped by the 300-particle
global budget for the systems whose spawn checks it: confetti reaches
min(120, MAX_CONFETTI, 300 − other active particles) and sparkles
min(30, MAX_SPARKLES, 300 − others), while the heart burst always spawns
exactly 20 and the balloon burst always spawns its random 6–10 (their spawns
skip the budget check); a rock-sign lock event clears bolts and spawns
nothing. -/
theorem C7_lock_event_burst_sizes (ops : MathOps) (randOf : ℕ → ℕ → ℚ) (bDraw : ℚ)
    (cw ch : ℚ) (s : EMState) (hb0 : 0 ≤ bDraw) (hb1 : bDraw < 1) :
    (EffectsManager.triggerLockEvent ops randOf bDraw GestureType.THUMBS_UP_HALO cw ch
        s).activeConfetti.length =
      min 120 (min MAX_CONFETTI (MAX_PARTICLES_TOTAL -
        (EffectsManager.getActiveParticleCount s - s.activeConfetti.length))) ∧
    (EffectsManager.triggerLockEvent ops randOf bDraw GestureType.TWO_HAND_HEART cw ch
        s).activeHearts.length = 20 ∧
    (EffectsManager.triggerLockEvent ops randOf bDraw GestureType.POINT_SPARKLES cw ch
        s).activeSparkles.length =
      min 30 (min MAX_SPARKLES (MAX_PARTICLES_TOTAL -
        (EffectsManager.getActiveParticleCount s - s.activeSparkles.length))) ∧
    (6 ≤ (EffectsManager.triggerLockEvent ops randOf bDraw GestureType.PEACE_SIGN cw ch
        s).activeBalloons.length ∧
      (EffectsManager.triggerLockEvent ops randOf bDraw GestureType.PEACE_SIGN cw ch
        s).activeBalloons.length ≤ 10) ∧
    ((EffectsManager.triggerLockEvent ops randOf bDraw GestureType.ROCK_SIGN cw ch
        s).activeBolts = [] ∧
      (EffectsManager.triggerLockEvent ops randOf bDraw GestureType.ROCK_SIGN cw ch
        s).activeConfetti = s.activeConfetti ∧
      (EffectsManager.triggerLockEvent ops randOf bDraw GestureType.ROCK_SIGN cw ch
        s).activeHearts = s.activeHearts ∧
      (EffectsManager.triggerLockEvent ops randOf bDraw GestureType.ROCK_SIGN cw ch
        s).activeSparkles = s.activeSparkles ∧
      (EffectsManager.triggerLockEvent ops randOf bDraw GestureType.ROCK_SIGN cw ch
        s).activeBalloons = s.activeBalloons) := by
  refine ⟨?_, ?_, ?_, ?_, ⟨rfl, rfl, rfl, rfl, rfl⟩⟩
  · have htr : EffectsManager.triggerLockEvent ops randOf bDraw GestureType.THUMBS_UP_HALO
        cw ch s =
        EffectsManager.confettiBurst ops randOf cw ch 0 120
          (EffectsManager.resetEffectForGesture GestureType.THUMBS_UP_HALO s) := rfl
    rw [htr, EffectsManager.confettiBurst_length,
      (EffectsManager.reset_thumbs_projections s).1, EffectsManager.reset_thumbs_count s]
    simp only [List.length_nil, Nat.sub_zero, Nat.zero_add]
  · have htr : EffectsManager.triggerLockEvent ops randOf bDraw GestureType.TWO_HAND_HEART
        cw ch s =
        EffectsManager.heartBurst ops randOf (cw / 2) (ch / 2) 0 20
          (EffectsManager.resetEffectForGesture GestureType.TWO_HAND_HEART s) := rfl
    have hh : (EffectsManager.resetEffectForGesture GestureType.TWO_HAND_HEART
        s).activeHearts = ([] : List HeartParticle) := rfl
    rw [htr, EffectsManager.heartBurst_length, hh]
    decide
  · have htr : EffectsManager.triggerLockEvent ops randOf bDraw GestureType.POINT_SPARKLES
        cw ch s =
        EffectsManager.sparkleBurst randOf (cw / 2) (ch / 2) 0 30
          (EffectsManager.resetEffectForGesture GestureType.POINT_SPARKLES s) := rfl
    have hsp : (EffectsManager.resetEffectForGesture GestureType.POINT_SPARKLES
        s).activeSparkles = ([] : List SparkleParticle) := rfl
    rw [htr, EffectsManager.sparkleBurst_length, hsp, EffectsManager.reset_point_count s]
    simp only [List.length_nil, Nat.sub_zero, Nat.zero_add]
  · have htr : EffectsManager.triggerLockEvent ops randOf bDraw GestureType.PEACE_SIGN
        cw ch s =
        EffectsManager.balloonBurst ops randOf (cw / 2) (ch / 2) cw ch 0
          ((6 + ⌊bDraw * (10 - 6 + 1)⌋).toNat)
          (EffectsManager.resetEffectForGesture GestureType.PEACE_SIGN s) := rfl
    have hbal : (EffectsManager.resetEffectForGesture GestureType.PEACE_SIGN
        s).activeBalloons = ([] : List BalloonParticle) := rfl
    rw [htr, EffectsManager.balloonBurst_length, hbal]
    have hq : ((10 : ℚ) - 6 + 1) = 5 := by norm_num
    rw [hq]
    have hf0 : 0 ≤ ⌊bDraw * 5⌋ := Int.floor_nonneg.mpr (by positivity)
    have hf1 : ⌊bDraw * 5⌋ < 5 := by
      rw [Int.floor_lt]
      push_cast
      linarith
    have hB : MAX_BALLOONS = 20 := rfl
    simp only [List.length_nil, Nat.sub_zero, Nat.zero_add]
    omega

/-- An effects-manager state with all pools and active lists empty. -/
def emptyEM : EMState :=
  { confettiPool := emptyConfettiPool
    heartPool := emptyHeartPool
    boltPool := emptyBoltPool
    sparklePool := emptySparklePool
    balloonPool := emptyBalloonPool }

/-- Witness for the amended C7 at the empty state: full bursts of 120
confetti, 20 hearts, and at least 6 balloons. -/
theorem C7_lock_event_burst_sizes_witness :
    (EffectsManager.triggerLockEvent dummyOps (fun _ _ => 0) 0 GestureType.THUMBS_UP_HALO
        100 100 emptyEM).activeConfetti.length = 120 ∧
    (EffectsManager.triggerLockEvent dummyOps (fun _ _ => 0) 0 GestureType.TWO_HAND_HEART
        100 100 emptyEM).activeHearts.length = 20 ∧
    6 ≤ (EffectsManager.triggerLockEvent dummyOps (fun _ _ => 0) 0 GestureType.PEACE_SIGN
        100 100 emptyEM).activeBalloons.length := by
  have h := C7_lock_event_burst_sizes dummyOps (fun _ _ => 0) 0 100 100 emptyEM
    (le_refl 0) (by norm_num)
  refine ⟨?_, h.2.1, h.2.2.2.1.1⟩
  rw [h.1]
  decide
